import Mathlib

/-!
# terradozer: a sweep over a Terraform state

A shallow embedding of `main.go`.  The program reads a Terraform state, lists
the resource instance addresses of the state in sorted order and sends one
ImportResourceState request to the AWS provider plugin for every managed
address whose instance has a current object.

The types of the Terraform packages (`addrs`, `states`, `tfdiags`, `providers`,
`cty`) are modelled as plain data with the fields the program touches.  The
operations of those packages whose bodies are not part of the program
(`Less`, the `String` methods, `sort.Slice`, `statefile.Read`) are parameters,
collected in `Ext`; the order in which a `range` loop visits a Go map is the
parameter `RangeOrder`; the plugin process and the file system are the
parameter `World`.  The map lookups of package states, `HasCurrent` and
`HasErrors` are one-line methods and are written out after Terraform 0.12.

A run is a list of events: file operations, calls to the provider plugin, lines
of the log and the exit of the process.
-/

namespace Terradozer

/-! ## Addresses (package addrs) -/

/-- The type addrs.InstanceKey: no key, an integer key or a string key. -/
inductive InstanceKey where
  | NoKey
  | IntKey (i : Int)
  | StringKey (s : String)
  deriving DecidableEq, Repr

/-- The type addrs.ResourceMode with its three constants. -/
inductive ResourceMode where
  | InvalidResourceMode
  | ManagedResourceMode
  | DataResourceMode
  deriving DecidableEq, Repr

/-- One step of a module path: addrs.ModuleInstanceStep. -/
structure ModuleInstanceStep where
  Name : String
  InstanceKey : InstanceKey
  deriving DecidableEq, Repr

/-- The type addrs.ModuleInstance, a slice of steps; the root module is the empty path. -/
abbrev ModuleInstance := List ModuleInstanceStep

/-- The type addrs.Resource. -/
structure AddrResource where
  Mode : ResourceMode
  /-- The field Type of the source; `Type` is a keyword here. -/
  Type_ : String
  Name : String
  deriving DecidableEq, Repr

/-- The type addrs.ResourceInstance. -/
structure AddrResourceInstance where
  Resource : AddrResource
  Key : InstanceKey
  deriving DecidableEq, Repr

/-- The type addrs.AbsResourceInstance. -/
structure AbsResourceInstance where
  Module : ModuleInstance
  Resource : AddrResourceInstance
  deriving DecidableEq, Repr

/-- The method addrs.Resource.Instance. -/
def AddrResource.Instance (r : AddrResource) (key : InstanceKey) : AddrResourceInstance :=
  { Resource := r, Key := key }

/-- The method addrs.ResourceInstance.Absolute. -/
def AddrResourceInstance.Absolute (r : AddrResourceInstance) (moduleAddr : ModuleInstance) :
    AbsResourceInstance :=
  { Module := moduleAddr, Resource := r }

/-- The method addrs.ResourceInstance.ContainingResource. -/
def AddrResourceInstance.ContainingResource (r : AddrResourceInstance) : AddrResource :=
  r.Resource

/-! ## States (package states) -/

/-- A Go map as the list of its entries.  A Go map has one entry per key
(`GoMap.NodupKeys`); the order of the list carries no meaning. -/
abbrev GoMap (κ ν : Type) := List (κ × ν)

/-- The keys of a map are pairwise distinct. -/
def GoMap.NodupKeys {κ ν : Type} (m : GoMap κ ν) : Prop := (m.map Prod.fst).Nodup

/-- The index expression `m[k]` with the comma-ok result as an option. -/
def GoMap.get? {κ ν : Type} [DecidableEq κ] (m : GoMap κ ν) (k : κ) : Option ν :=
  match m with
  | [] => none
  | (k', v) :: rest => if k' = k then some v else GoMap.get? rest k

/-- The type states.ResourceInstanceObjectSrc: the attributes of an object, either
as raw JSON or as a flat string map. -/
structure ResourceInstanceObjectSrc where
  AttrsJSON : List Nat
  AttrsFlat : GoMap String String
  deriving DecidableEq, Repr

/-- The type states.ResourceInstance: an optional current object and the deposed
objects by deposed key. -/
structure ResourceInstance where
  Current : Option ResourceInstanceObjectSrc
  Deposed : GoMap String ResourceInstanceObjectSrc
  deriving DecidableEq, Repr

/-- The type states.Resource. -/
structure Resource where
  Addr : AddrResource
  Instances : GoMap InstanceKey ResourceInstance
  deriving DecidableEq, Repr

/-- The type states.Module. -/
structure Module where
  Addr : ModuleInstance
  Resources : GoMap String Resource
  deriving DecidableEq, Repr

/-- The type states.State. -/
structure State where
  Modules : GoMap String Module
  deriving DecidableEq, Repr

/-- The type statefile.File. -/
structure StateFile where
  TerraformVersion : String
  Serial : Nat
  Lineage : String
  State : State
  deriving DecidableEq, Repr

/-! ## Diagnostics (package tfdiags) -/

/-- The type tfdiags.Severity. -/
inductive Severity where
  | Error
  | Warning
  deriving DecidableEq, Repr

/-- One diagnostic: its severity and its summary text. -/
structure Diagnostic where
  Severity : Severity
  Summary : String
  deriving DecidableEq, Repr

/-- The type tfdiags.Diagnostics, a slice of diagnostics; the nil slice is `[]`. -/
abbrev Diagnostics := List Diagnostic

/-- The method tfdiags.Diagnostics.HasErrors: some diagnostic has severity Error. -/
def Diagnostics.HasErrors (diags : Diagnostics) : Bool :=
  diags.any (fun d => decide (d.Severity = Severity.Error))

/-! ## Values and provider requests (packages cty and providers) -/

/-- The types of package cty that the program names. -/
inductive CtyType where
  | String
  | DynamicPseudoType
  deriving DecidableEq, Repr

/-- The values of package cty that the program builds: a known string, an unknown
value of a type, and an object with its attributes by name. -/
inductive Value where
  | StringVal (s : String)
  | UnknownVal (ty : CtyType)
  | ObjectVal (attrs : List (String × Value))

/-- The type providers.ConfigureRequest. -/
structure ConfigureRequest where
  TerraformVersion : String
  Config : Value

/-- The type providers.ConfigureResponse. -/
structure ConfigureResponse where
  Diagnostics : Diagnostics

/-- The type providers.ImportResourceStateRequest. -/
structure ImportResourceStateRequest where
  TypeName : String
  ID : String
  deriving DecidableEq, Repr

/-- The type providers.ImportedResource. -/
structure ImportedResource where
  TypeName : String
  State : Value
  Private : List Nat

/-- The type providers.ImportResourceStateResponse. -/
structure ImportResourceStateResponse where
  ImportedResources : List ImportedResource
  Diagnostics : Diagnostics

/-- The two methods of providers.Interface that the program calls.  The plugin is a
process with a state of its own, of type `σ`: a call takes the state of the
plugin and the request and gives the next state and the response, so a response
may depend on every earlier call. -/
structure Provider (σ : Type) where
  Configure : σ → ConfigureRequest → σ × ConfigureResponse
  ImportResourceState : σ → ImportResourceStateRequest → σ × ImportResourceStateResponse

/-- The type TerraformProvider of main.go: a struct that embeds providers.Interface. -/
structure TerraformProvider (σ : Type) where
  Interface : Provider σ

/-- The type discovery.PluginMeta. -/
structure PluginMeta where
  Name : String
  Version : String
  Path : String
  deriving DecidableEq, Repr

/-! ## Operations of the libraries that are parameters -/

/-- The operations of the Terraform and Go libraries that the program calls and
whose bodies are not part of it. -/
structure Ext where
  /-- The method addrs.AbsResourceInstance.Less. -/
  Less : AbsResourceInstance → AbsResourceInstance → Bool
  /-- The method addrs.ModuleInstance.String, the key of State.Modules. -/
  moduleString : ModuleInstance → String
  /-- The method addrs.Resource.String, the key of Module.Resources. -/
  resourceString : AddrResource → String
  /-- The method addrs.AbsResourceInstance.String. -/
  addrString : AbsResourceInstance → String
  /-- The function sort.Slice, given the comparison on elements. -/
  sortSlice : (AbsResourceInstance → AbsResourceInstance → Bool) →
    List AbsResourceInstance → List AbsResourceInstance
  /-- The function statefile.Read on the bytes of a file. -/
  statefileRead : List Nat → Except String StateFile
  /-- The method tfdiags.Diagnostics.Err as the text of the error. -/
  diagErr : Diagnostics → String
  /-- The method cty.Value.GoString. -/
  goString : Value → String

/-- The order in which a `range` loop visits the entries of each of the three
maps of a state. -/
structure RangeOrder where
  modules : GoMap String Module → List (String × Module)
  resources : GoMap String Resource → List (String × Resource)
  instances : GoMap InstanceKey ResourceInstance → List (InstanceKey × ResourceInstance)

/-- A `range` loop visits every entry of the map exactly once, in some order. -/
def RangeOrder.Valid (ρ : RangeOrder) : Prop :=
  (∀ m, (ρ.modules m).Perm m) ∧ (∀ m, (ρ.resources m).Perm m) ∧ (∀ m, (ρ.instances m).Perm m)

/-- The visiting order that follows the list of entries. -/
def RangeOrder.id : RangeOrder :=
  { modules := fun m => m, resources := fun m => m, instances := fun m => m }

/-- The visiting order that follows the list of entries backwards. -/
def RangeOrder.rev : RangeOrder :=
  { modules := List.reverse, resources := List.reverse, instances := List.reverse }

/-! ## Lookups in a state (package states) -/

/-- The method states.State.Module: `s.Modules[addr.String()]`. -/
def State.Module (X : Ext) (s : State) (addr : ModuleInstance) : Option Module :=
  GoMap.get? s.Modules (X.moduleString addr)

/-- The method states.Module.Resource: `ms.Resources[addr.String()]`. -/
def Module.Resource (X : Ext) (ms : Module) (addr : AddrResource) : Option Resource :=
  GoMap.get? ms.Resources (X.resourceString addr)

/-- The method states.Module.ResourceInstance. -/
def Module.ResourceInstance (X : Ext) (ms : Module) (addr : AddrResourceInstance) :
    Option ResourceInstance :=
  match Module.Resource X ms addr.ContainingResource with
  | none => none
  | some rs => GoMap.get? rs.Instances addr.Key

/-- The method states.State.ResourceInstance; `none` is the nil pointer. -/
def State.ResourceInstance (X : Ext) (s : State) (addr : AbsResourceInstance) :
    Option ResourceInstance :=
  match State.Module X s addr.Module with
  | none => none
  | some ms => Module.ResourceInstance X ms addr.Resource

/-- The method states.ResourceInstance.HasCurrent: `i != nil && i.Current != nil`. -/
def HasCurrent (i : Option ResourceInstance) : Bool :=
  match i with
  | none => false
  | some inst => inst.Current.isSome

/-! ## Enumeration of the addresses (main.go, lines 175 to 203) -/

/-- The function collectResourceInstances. -/
def collectResourceInstances (ρ : RangeOrder) (moduleAddr : ModuleInstance) (rs : Resource) :
    List AbsResourceInstance :=
  (ρ.instances rs.Instances).foldl
    (fun ret kv => ret ++ [(rs.Addr.Instance kv.1).Absolute moduleAddr]) []

/-- The function collectModuleResourceInstances. -/
def collectModuleResourceInstances (ρ : RangeOrder) (ms : Module) : List AbsResourceInstance :=
  (ρ.resources ms.Resources).foldl
    (fun ret kv => ret ++ collectResourceInstances ρ ms.Addr kv.2) []

/-- The function lookupAllResourceInstanceAddrs. -/
def lookupAllResourceInstanceAddrs (X : Ext) (ρ : RangeOrder) (state : State) :
    List AbsResourceInstance × Diagnostics :=
  let diags : Diagnostics := []
  let ret := (ρ.modules state.Modules).foldl
    (fun ret kv => ret ++ collectModuleResourceInstances ρ kv.2) []
  (X.sortSlice X.Less ret, diags)

/-! ## What a run does: events -/

/-- The flag of os.OpenFile. -/
inductive OpenFlag where
  | O_RDONLY
  | O_WRONLY
  | O_RDWR
  deriving DecidableEq, Repr

/-- The levels of logrus that the program logs at. -/
inductive Level where
  | FatalLevel
  | InfoLevel
  | DebugLevel
  deriving DecidableEq, Repr

/-- What a run does to the world outside, in order. -/
inductive Event where
  /-- A call of os.OpenFile on a path with a flag. -/
  | OpenFile (name : String) (flag : OpenFlag)
  /-- The file at the path is read to its end (statefile.Read). -/
  | ReadFile (name : String)
  /-- The file at the path is closed. -/
  | CloseFile (name : String)
  /-- A Configure call to the provider plugin. -/
  | Configure (req : ConfigureRequest)
  /-- An ImportResourceState call to the provider plugin. -/
  | ImportResourceState (req : ImportResourceStateRequest)
  /-- A line of the log: level, message and fields. -/
  | Log (level : Level) (msg : String) (fields : List (String × String))
  /-- The process ends with the exit code (os.Exit). -/
  | Exit (code : Nat)

/-- The world outside the program. -/
structure World (σ : Type) where
  /-- The method Client of the plugin client: start the plugin process. -/
  clientClient : PluginMeta → Except String Unit
  /-- The method Dispense of the RPC client: the provider and the state the
  plugin process starts in. -/
  dispense : PluginMeta → String → Except String (Provider σ × σ)
  /-- The file system: the bytes of the file at a path, or the error of os.Open. -/
  files : String → Except String (List Nat)

/-- The plugin process and what the run has done so far. -/
structure Mach (σ : Type) where
  prov : σ
  trace : List Event

/-- Append an event to the trace. -/
def Mach.emit {σ : Type} (c : Mach σ) (e : Event) : Mach σ :=
  { c with trace := c.trace ++ [e] }

/-- A Configure call over RPC: the plugin takes a step, the call is on the trace. -/
def Provider.callConfigure {σ : Type} (p : Provider σ) (c : Mach σ) (req : ConfigureRequest) :
    Mach σ × ConfigureResponse :=
  let r := p.Configure c.prov req
  ({ prov := r.1, trace := c.trace ++ [Event.Configure req] }, r.2)

/-- An ImportResourceState call over RPC. -/
def Provider.callImportResourceState {σ : Type} (p : Provider σ) (c : Mach σ)
    (req : ImportResourceStateRequest) : Mach σ × ImportResourceStateResponse :=
  let r := p.ImportResourceState c.prov req
  ({ prov := r.1, trace := c.trace ++ [Event.ImportResourceState req] }, r.2)

/-- The call `logrus.WithError(err).Fatal(msg)`: a line at level fatal, then exit 1. -/
def logFatal (err msg : String) : List Event :=
  [Event.Log Level.FatalLevel msg [("error", err)], Event.Exit 1]

/-- The function os.Open: os.OpenFile with the flag O_RDONLY. -/
def osOpen {σ : Type} (W : World σ) (name : String) : Except String (List Nat) × List Event :=
  (W.files name, [Event.OpenFile name OpenFlag.O_RDONLY])

/-! ## The program (main.go) -/

/-- The constant plugin.ProviderPluginName. -/
def ProviderPluginName : String := "provider"

/-- The function providerFactory applied to its result (main.go, lines 92 to 112). -/
def providerFactory {σ : Type} (W : World σ) (meta : PluginMeta) :
    Except String (Provider σ × σ) :=
  match W.clientClient meta with
  | .error err => .error err
  | .ok _ =>
    match W.dispense meta ProviderPluginName with
    | .error err => .error err
    | .ok p => .ok p

/-- The function loadAWSProvider (main.go, lines 77 to 89). -/
def loadAWSProvider {σ : Type} (W : World σ) : Except String (TerraformProvider σ × σ) :=
  let awsProviderPluginData : PluginMeta :=
    { Name := "terraform-provider-aws",
      Version := "v2.33.0",
      Path := "./terraform-provider-aws_v2.33.0_x4" }
  match providerFactory W awsProviderPluginData with
  | .error err => .error err
  | .ok (awsProvider, s) => .ok ({ Interface := awsProvider }, s)

/-- The function getStateFromPath (main.go, lines 159 to 172). -/
def getStateFromPath {σ : Type} (X : Ext) (W : World σ) (path : String) :
    Except String StateFile × List Event :=
  let o := osOpen W path
  match o.1 with
  | .error err => (.error ("failed loading statefile: " ++ err), o.2)
  | .ok f =>
    match X.statefileRead f with
    | .error err =>
      (.error ("failed reading " ++ path ++ " as a statefile: " ++ err),
        o.2 ++ [Event.ReadFile path, Event.CloseFile path])
    | .ok stateFile => (.ok stateFile, o.2 ++ [Event.ReadFile path, Event.CloseFile path])

/-- The function getState (main.go, lines 114 to 120). -/
def getState {σ : Type} (X : Ext) (W : World σ) : Except String State × List Event :=
  let r := getStateFromPath X W "terraform.tfstate"
  match r.1 with
  | .error err => (.error err, r.2)
  | .ok stateFile => (.ok stateFile.State, r.2)

/-- The method TerraformProvider.configure (main.go, lines 122 to 147). -/
def TerraformProvider.configure {σ : Type} (p : TerraformProvider σ) (c : Mach σ)
    (profile region : String) : Mach σ × Diagnostics :=
  let respConf := p.Interface.callConfigure c
    { TerraformVersion := "0.12.11",
      Config := Value.ObjectVal [
        ("profile", Value.StringVal profile),
        ("region", Value.StringVal region),
        ("access_key", Value.UnknownVal CtyType.DynamicPseudoType),
        ("allowed_account_ids", Value.UnknownVal CtyType.DynamicPseudoType),
        ("assume_role", Value.UnknownVal CtyType.DynamicPseudoType),
        ("endpoints", Value.UnknownVal CtyType.DynamicPseudoType),
        ("forbidden_account_ids", Value.UnknownVal CtyType.DynamicPseudoType),
        ("insecure", Value.UnknownVal CtyType.DynamicPseudoType),
        ("max_retries", Value.UnknownVal CtyType.DynamicPseudoType),
        ("s3_force_path_style", Value.UnknownVal CtyType.DynamicPseudoType),
        ("secret_key", Value.UnknownVal CtyType.DynamicPseudoType),
        ("shared_credentials_file", Value.UnknownVal CtyType.DynamicPseudoType),
        ("skip_credentials_validation", Value.UnknownVal CtyType.DynamicPseudoType),
        ("skip_get_ec2_platforms", Value.UnknownVal CtyType.DynamicPseudoType),
        ("skip_metadata_api_check", Value.UnknownVal CtyType.DynamicPseudoType),
        ("skip_region_validation", Value.UnknownVal CtyType.DynamicPseudoType),
        ("skip_requesting_account_id", Value.UnknownVal CtyType.DynamicPseudoType),
        ("token", Value.UnknownVal CtyType.DynamicPseudoType)] }
  (respConf.1, respConf.2.Diagnostics)

/-- The method TerraformProvider.importResource (main.go, lines 149 to 156). -/
def TerraformProvider.importResource {σ : Type} (p : TerraformProvider σ) (c : Mach σ)
    (resType : String) (resID : String) : Mach σ × List ImportedResource × Diagnostics :=
  let respImport := p.Interface.callImportResourceState c { TypeName := resType, ID := resID }
  (respImport.1, respImport.2.ImportedResources, respImport.2.Diagnostics)

/-- The map index `AttrsFlat["id"]` of Go: the zero value, the empty string, when
the key is absent. -/
def attrsFlatIndex (m : GoMap String String) (k : String) : String :=
  (GoMap.get? m k).getD ""

/-- The expression `resInstance.Current.AttrsFlat`, which the program evaluates
only after HasCurrent has answered true. -/
def currentAttrsFlat (i : Option ResourceInstance) : GoMap String String :=
  match i with
  | some { Current := some obj, Deposed := _ } => obj.AttrsFlat
  | _ => []

/-- The body of the loop of main (main.go, lines 53 to 73) for one address.  The
state and the machine go in and come out. -/
def sweepStep {σ : Type} (X : Ext) (p : TerraformProvider σ) (acc : State × Mach σ)
    (resAddr : AbsResourceInstance) : State × Mach σ :=
  let state := acc.1
  let c := acc.2
  let resInstance := State.ResourceInstance X state resAddr
  if HasCurrent resInstance then
    let resMode := resAddr.Resource.Resource.Mode
    let resID := attrsFlatIndex (currentAttrsFlat resInstance) "id"
    let resType := resAddr.Resource.Resource.Type_
    if resMode = ResourceMode.ManagedResourceMode then
      let c1 := c.emit (Event.Log Level.InfoLevel (X.addrString resAddr) [("id", resID)])
      let r := p.importResource c1 resType resID
      let c2 := r.1
      let resImported := r.2.1
      let tfDiagnostics := r.2.2
      if tfDiagnostics.HasErrors then
        (state, c2.emit (Event.Log Level.InfoLevel
          ("failed to import resource (type=" ++ resType ++ ", id=" ++ resID ++ ")")
          [("error", X.diagErr tfDiagnostics)]))
      else
        (state, resImported.foldl (fun c3 r => c3.emit (Event.Log Level.DebugLevel
          ("imported resource (type=" ++ r.TypeName ++ ", id=" ++ resID ++ "): "
            ++ X.goString r.State) [])) c2)
    else (state, c)
  else (state, c)

/-- The loop of main (main.go, lines 52 to 74). -/
def sweep {σ : Type} (X : Ext) (p : TerraformProvider σ) (state : State) (c : Mach σ)
    (resInstances : List AbsResourceInstance) : State × Mach σ :=
  resInstances.foldl (sweepStep X p) (state, c)

/-- How a run of main ends: what it did, and the state it holds in memory when
the run is over, if it got as far as reading one. -/
structure Outcome where
  trace : List Event
  state : Option State

/-- The function main (main.go, lines 23 to 75). -/
def main {σ : Type} (X : Ext) (ρ : RangeOrder) (W : World σ) : Outcome :=
  let profile := "tfsweeper"
  let region := "us-west-2"
  match loadAWSProvider W with
  | .error err =>
    { trace := logFatal err "failed to load Terraform AWS resource provider", state := none }
  | .ok (p, s0) =>
    let r := p.configure { prov := s0, trace := [] } profile region
    let c := r.1
    let tfDiagnostics := r.2
    if tfDiagnostics.HasErrors then
      { trace := c.trace ++
          logFatal (X.diagErr tfDiagnostics) "failed to configure Terraform provider",
        state := none }
    else
      let g := getState X W
      let c := { c with trace := c.trace ++ g.2 }
      match g.1 with
      | .error err =>
        { trace := c.trace ++ logFatal err "failed to read tfstate from local file",
          state := none }
      | .ok state =>
        let l := lookupAllResourceInstanceAddrs X ρ state
        let resInstances := l.1
        let diagnostics := l.2
        if diagnostics.HasErrors then
          { trace := c.trace ++
              logFatal (X.diagErr diagnostics) "failed to lookup resource instance addresses",
            state := some state }
        else
          let fin := sweep X p state c resInstances
          { trace := fin.2.trace, state := some fin.1 }

/-! ## A concrete instance of the library operations

The operations below follow the package addrs of Terraform 0.12 and insertion
sort stands for sort.Slice.  They serve to run the program on examples. -/

/-- The method String of an instance key: empty for no key, the key in brackets
otherwise. -/
def InstanceKey.String (k : InstanceKey) : String :=
  match k with
  | InstanceKey.NoKey => ""
  | InstanceKey.IntKey i => "[" ++ toString i ++ "]"
  | InstanceKey.StringKey s => "[\"" ++ s ++ "\"]"

/-- The operator `<` of Go on strings: the order of the bytes, which for UTF-8 is
the order of the characters. -/
def strLess (a b : String) : Bool := decide (a.data < b.data)

/-- The function addrs.InstanceKeyLess: no key first, then integer keys by value,
then string keys by text. -/
def InstanceKeyLess (i j : InstanceKey) : Bool :=
  match i, j with
  | InstanceKey.NoKey, InstanceKey.NoKey => false
  | InstanceKey.NoKey, _ => true
  | _, InstanceKey.NoKey => false
  | InstanceKey.IntKey a, InstanceKey.IntKey b => decide (a < b)
  | InstanceKey.IntKey _, InstanceKey.StringKey _ => true
  | InstanceKey.StringKey _, InstanceKey.IntKey _ => false
  | InstanceKey.StringKey a, InstanceKey.StringKey b => strLess a b

/-- The method addrs.ModuleInstance.String: the steps as `module.NAME` with the
key, joined by dots; the root module is the empty string. -/
def ModuleInstance.String (m : ModuleInstance) : String :=
  ".".intercalate (m.map (fun step => "module." ++ step.Name ++ step.InstanceKey.String))

/-- The loop of addrs.ModuleInstance.Less over two paths of equal length: the
first step that differs decides, by name and then by key. -/
def ModuleInstance.stepsLess (m o : ModuleInstance) : Bool :=
  match m, o with
  | mS :: m', oS :: o' =>
    if mS.Name ≠ oS.Name then strLess mS.Name oS.Name
    else if mS.InstanceKey ≠ oS.InstanceKey then InstanceKeyLess mS.InstanceKey oS.InstanceKey
    else ModuleInstance.stepsLess m' o'
  | _, _ => false

/-- The method addrs.ModuleInstance.Less: the shorter path first. -/
def ModuleInstance.Less (m o : ModuleInstance) : Bool :=
  if m.length ≠ o.length then decide (m.length < o.length)
  else ModuleInstance.stepsLess m o

/-- The method addrs.Resource.String. -/
def AddrResource.String (r : AddrResource) : String :=
  match r.Mode with
  | ResourceMode.ManagedResourceMode => r.Type_ ++ "." ++ r.Name
  | ResourceMode.DataResourceMode => "data." ++ r.Type_ ++ "." ++ r.Name
  | ResourceMode.InvalidResourceMode => "<invalid>." ++ r.Type_ ++ "." ++ r.Name

/-- The method addrs.AbsResourceInstance.String. -/
def AbsResourceInstance.String (r : AbsResourceInstance) : String :=
  if r.Module.length = 0 then r.Resource.Resource.String ++ r.Resource.Key.String
  else ModuleInstance.String r.Module ++ "." ++ r.Resource.Resource.String
    ++ r.Resource.Key.String

/-- The method addrs.AbsResourceInstance.Less: by length of the module path, by
module, data before managed, by type, by name, by key. -/
def AbsResourceInstance.Less (r o : AbsResourceInstance) : Bool :=
  if r.Module.length ≠ o.Module.length then decide (r.Module.length < o.Module.length)
  else if ModuleInstance.String r.Module ≠ ModuleInstance.String o.Module then
    ModuleInstance.Less r.Module o.Module
  else if r.Resource.Resource.Mode ≠ o.Resource.Resource.Mode then
    decide (r.Resource.Resource.Mode = ResourceMode.DataResourceMode)
  else if r.Resource.Resource.Type_ ≠ o.Resource.Resource.Type_ then
    strLess r.Resource.Resource.Type_ o.Resource.Resource.Type_
  else if r.Resource.Resource.Name ≠ o.Resource.Resource.Name then
    strLess r.Resource.Resource.Name o.Resource.Resource.Name
  else if r.Resource.Key ≠ o.Resource.Key then InstanceKeyLess r.Resource.Key o.Resource.Key
  else false

/-- Insert an element into a sorted list, before the first element that is not
less than it. -/
def insertSorted {α : Type} (less : α → α → Bool) (a : α) (l : List α) : List α :=
  match l with
  | [] => [a]
  | b :: l' => if less b a then b :: insertSorted less a l' else a :: b :: l'

/-- Insertion sort by a comparison. -/
def insertionSortBy {α : Type} (less : α → α → Bool) (l : List α) : List α :=
  match l with
  | [] => []
  | a :: l' => insertSorted less a (insertionSortBy less l')

/-- The text and type of a value, standing for cty.Value.GoString. -/
def Value.describe (v : Value) : String :=
  match v with
  | Value.StringVal s => "cty.StringVal(" ++ s ++ ")"
  | Value.UnknownVal _ => "cty.UnknownVal"
  | Value.ObjectVal _ => "cty.ObjectVal"

/-- The concrete library operations, for a given reader of state files. -/
def tfExt (read : List Nat → Except String StateFile) : Ext :=
  { Less := AbsResourceInstance.Less,
    moduleString := ModuleInstance.String,
    resourceString := AddrResource.String,
    addrString := AbsResourceInstance.String,
    sortSlice := insertionSortBy,
    statefileRead := read,
    diagErr := fun diags => ", ".intercalate (diags.map (fun d => d.Summary)),
    goString := Value.describe }

/-! ## Reading a trace -/

/-- The ImportResourceState requests of a trace, in order. -/
def importRequests (trace : List Event) : List ImportResourceStateRequest :=
  trace.filterMap (fun e =>
    match e with
    | Event.ImportResourceState req => some req
    | _ => none)

/-- The Configure requests of a trace, in order. -/
def configureRequests (trace : List Event) : List ConfigureRequest :=
  trace.filterMap (fun e =>
    match e with
    | Event.Configure req => some req
    | _ => none)

/-- The event is a call to the provider plugin. -/
def Event.isProviderCall (e : Event) : Bool :=
  match e with
  | Event.Configure _ => true
  | Event.ImportResourceState _ => true
  | _ => false

/-- The event is the end of the process. -/
def Event.isExit (e : Event) : Bool :=
  match e with
  | Event.Exit _ => true
  | _ => false

/-- The loop of main acts on this address: its instance in the state has a
current object and its resource mode is managed. -/
def swept (X : Ext) (state : State) (a : AbsResourceInstance) : Bool :=
  HasCurrent (State.ResourceInstance X state a) &&
    decide (a.Resource.Resource.Mode = ResourceMode.ManagedResourceMode)

/-- The request of the loop of main for an address: the resource type of the
address and the flat attribute "id" of the current object. -/
def requestFor (X : Ext) (state : State) (a : AbsResourceInstance) : ImportResourceStateRequest :=
  { TypeName := a.Resource.Resource.Type_,
    ID := attrsFlatIndex (currentAttrsFlat (State.ResourceInstance X state a)) "id" }

/-- The set-up of main succeeds: the provider loads, its answer to Configure has
no error, and the state file is read. -/
def SetupOk {σ : Type} (X : Ext) (W : World σ) (p : TerraformProvider σ) (s0 : σ)
    (state : State) : Prop :=
  loadAWSProvider W = .ok (p, s0) ∧
  (p.configure { prov := s0, trace := [] } "tfsweeper" "us-west-2").2.HasErrors = false ∧
  (getState X W).1 = .ok state

/-- The event is one that the loop of main produces: a line of the log at level
info or debug, or an ImportResourceState call. -/
def Event.isSweepEvent (e : Event) : Bool :=
  match e with
  | Event.Log Level.InfoLevel _ _ => true
  | Event.Log Level.DebugLevel _ _ => true
  | Event.ImportResourceState _ => true
  | _ => false

/-- The set-up of main fails: the provider does not load, or its answer to
Configure has an error, or the state file is not read. -/
def SetupFails {σ : Type} (X : Ext) (W : World σ) : Prop :=
  (∃ err, loadAWSProvider W = .error err) ∨
  (∃ p s0, loadAWSProvider W = .ok (p, s0) ∧
    (p.configure { prov := s0, trace := [] } "tfsweeper" "us-west-2").2.HasErrors = true) ∨
  (∃ err, (getState X W).1 = .error err)

/-- The trace ends with a line of the log at level fatal and the exit with code 1. -/
def FatalEnd (trace : List Event) : Prop :=
  ∃ t msg fields, trace = t ++ [Event.Log Level.FatalLevel msg fields, Event.Exit 1]

/-- The machine with which the loop of main starts after a successful set-up. -/
def machAfterSetup {σ : Type} (X : Ext) (W : World σ) (p : TerraformProvider σ) (s0 : σ) : Mach σ :=
  { prov := (p.configure { prov := s0, trace := [] } "tfsweeper" "us-west-2").1.prov,
    trace := (p.configure { prov := s0, trace := [] } "tfsweeper" "us-west-2").1.trace ++
      (getState X W).2 }

/-! ## The contents of a state and the contracts of the library operations -/

/-- The addresses of a state, read off its contents: for every module, every
resource in it and every instance key of that resource, the absolute address made
of the module address, the resource address and the key. -/
def State.allAddrs (s : State) : List AbsResourceInstance :=
  s.Modules.flatMap (fun m =>
    m.2.Resources.flatMap (fun r =>
      r.2.Instances.map (fun i =>
        { Module := m.2.Addr, Resource := { Resource := r.2.Addr, Key := i.1 } })))

/-- The sum of the instance counts of all resources of all modules. -/
def State.instanceCount (s : State) : Nat :=
  (s.Modules.map (fun m => (m.2.Resources.map (fun r => r.2.Instances.length)).sum)).sum

/-- The invariant of package states: every map has one entry per key, a module is
stored under the String of its address and a resource under the String of its
address. -/
def State.WellFormed (X : Ext) (s : State) : Prop :=
  GoMap.NodupKeys s.Modules ∧
  ∀ m ∈ s.Modules, m.1 = X.moduleString m.2.Addr ∧ GoMap.NodupKeys m.2.Resources ∧
    ∀ r ∈ m.2.Resources, r.1 = X.resourceString r.2.Addr ∧ GoMap.NodupKeys r.2.Instances

/-- The comparison is a strict weak order on the elements of the list, which is
what sort.Slice asks of it: no element is less than itself, and both being less
and not being less are transitive. -/
def StrictWeakOn {α : Type} (less : α → α → Bool) (l : List α) : Prop :=
  (∀ a ∈ l, less a a = false) ∧
  (∀ a ∈ l, ∀ b ∈ l, ∀ c ∈ l, less a b = true → less b c = true → less a c = true) ∧
  (∀ a ∈ l, ∀ b ∈ l, ∀ c ∈ l, less a b = false → less b c = false → less a c = false)

/-- The comparison is a strict total order on the elements of the list: no element
is less than itself, being less is transitive, and of two distinct elements one
is less than the other. -/
def StrictTotalOn {α : Type} (less : α → α → Bool) (l : List α) : Prop :=
  (∀ a ∈ l, less a a = false) ∧
  (∀ a ∈ l, ∀ b ∈ l, ∀ c ∈ l, less a b = true → less b c = true → less a c = true) ∧
  (∀ a ∈ l, ∀ b ∈ l, a ≠ b → less a b = true ∨ less b a = true)

/-- The list is sorted ascending: no element is less than an element before it. -/
def SortedBy {α : Type} (less : α → α → Bool) (l : List α) : Prop :=
  l.Pairwise (fun a b => less b a = false)

/-- The contract of sort.Slice: the result is a rearrangement of the slice, and it
is sorted whenever the comparison is a strict weak order on the elements. -/
def SortContract {α : Type} (sortSlice : (α → α → Bool) → List α → List α) : Prop :=
  ∀ less l, (sortSlice less l).Perm l ∧ (StrictWeakOn less l → SortedBy less (sortSlice less l))

/-! ## Example states and worlds -/

/-- The address of resource `aws_instance.web` in the root module. -/
def addrWeb : AddrResource :=
  { Mode := ResourceMode.ManagedResourceMode, Type_ := "aws_instance", Name := "web" }

/-- The address of resource `aws_vpc.main` in the root module. -/
def addrVpc : AddrResource :=
  { Mode := ResourceMode.ManagedResourceMode, Type_ := "aws_vpc", Name := "main" }

/-- The address of data resource `data.aws_ami.ubuntu`. -/
def addrAmi : AddrResource :=
  { Mode := ResourceMode.DataResourceMode, Type_ := "aws_ami", Name := "ubuntu" }

/-- An object whose attributes are flat and hold an id. -/
def objFlat (id : String) : ResourceInstanceObjectSrc :=
  { AttrsJSON := [], AttrsFlat := [("ami", "ami-1"), ("id", id)] }

/-- An object whose attributes are raw JSON, the bytes of `{}`; the flat map is nil. -/
def objJSON : ResourceInstanceObjectSrc :=
  { AttrsJSON := [123, 125], AttrsFlat := [] }

/-- A state with one managed instance that has a deposed object and no current
object. -/
def stateDeposed : State :=
  { Modules := [("",
      { Addr := [],
        Resources := [("aws_instance.web",
          { Addr := addrWeb,
            Instances := [(InstanceKey.NoKey,
              { Current := none, Deposed := [("00000001", objFlat "i-1")] })] })] })] }

/-- A state with four instances in the root module: a managed instance with a flat
id, a managed instance with JSON attributes, a managed instance with only a
deposed object, and an instance of a data resource. -/
def stateMixed : State :=
  { Modules := [("",
      { Addr := [],
        Resources := [
          ("aws_vpc.main",
            { Addr := addrVpc,
              Instances := [(InstanceKey.NoKey, { Current := some objJSON, Deposed := [] })] }),
          ("aws_instance.web",
            { Addr := addrWeb,
              Instances := [
                (InstanceKey.IntKey 1,
                  { Current := none, Deposed := [("00000001", objFlat "i-1")] }),
                (InstanceKey.IntKey 0, { Current := some (objFlat "i-0"), Deposed := [] })] }),
          ("data.aws_ami.ubuntu",
            { Addr := addrAmi,
              Instances := [(InstanceKey.NoKey,
                { Current := some (objFlat "ami-1"), Deposed := [] })] })] })] }

/-- A reader of state files that answers with the given state for every file that
is not empty. -/
def readAs (state : State) (bytes : List Nat) : Except String StateFile :=
  match bytes with
  | [] => .error "unexpected end of file"
  | _ => .ok { TerraformVersion := "0.12.11", Serial := 1, Lineage := "", State := state }

/-- A provider that answers every call without diagnostics; its state counts the
calls. -/
def providerOk : Provider Nat :=
  { Configure := fun n _ => (n + 1, { Diagnostics := [] }),
    ImportResourceState := fun n req =>
      (n + 1, { ImportedResources := [{ TypeName := req.TypeName,
                                         State := Value.StringVal req.ID, Private := [] }],
                Diagnostics := [] }) }

/-- A provider that answers every ImportResourceState call with an error. -/
def providerFailing : Provider Nat :=
  { Configure := fun n _ => (n + 1, { Diagnostics := [] }),
    ImportResourceState := fun n _ =>
      (n + 1, { ImportedResources := [],
                Diagnostics := [{ Severity := Severity.Error, Summary := "not found" }] }) }

/-- A provider that answers Configure with an error. -/
def providerUnconfigurable : Provider Nat :=
  { Configure := fun n _ =>
      (n + 1, { Diagnostics := [{ Severity := Severity.Error, Summary := "no credentials" }] }),
    ImportResourceState := providerOk.ImportResourceState }

/-- A world in which the plugin starts with the given provider and the state file
exists. -/
def worldWith (p : Provider Nat) : World Nat :=
  { clientClient := fun _ => .ok (),
    dispense := fun _ _ => .ok (p, 0),
    files := fun name =>
      if name = "terraform.tfstate" then .ok [123, 125] else .error "no such file or directory" }

/-- A world in which the plugin process does not start. -/
def worldNoPlugin : World Nat :=
  { clientClient := fun _ => .error "exec: file not found",
    dispense := fun _ _ => .ok (providerOk, 0),
    files := fun _ => .ok [123, 125] }

/-- A world in which the state file does not exist. -/
def worldNoFile : World Nat :=
  { clientClient := fun _ => .ok (),
    dispense := fun _ _ => .ok (providerOk, 0),
    files := fun _ => .error "no such file or directory" }

/-! ## Lemmas on the loop -/

theorem importRequests_append (t u : List Event) :
    importRequests (t ++ u) = importRequests t ++ importRequests u := by
  simp [importRequests, List.filterMap_append]

theorem foldl_emit_trace {σ : Type} {β : Type} (f : β → Event) (l : List β) (c : Mach σ) :
    (l.foldl (fun c3 r => c3.emit (f r)) c).trace = c.trace ++ l.map f := by
  induction l generalizing c with
  | nil => simp
  | cons r l ih =>
    simp only [List.foldl_cons, ih, List.map_cons]
    simp [Mach.emit]

theorem importRequests_debug (f : ImportedResource → String) (l : List ImportedResource) :
    importRequests (l.map (fun r => Event.Log Level.DebugLevel (f r) [])) = [] := by
  induction l with
  | nil => rfl
  | cons r l ih => simp [importRequests]

theorem sweepStep_state {σ : Type} (X : Ext) (p : TerraformProvider σ) (acc : State × Mach σ)
    (a : AbsResourceInstance) : (sweepStep X p acc a).1 = acc.1 := by
  unfold sweepStep
  simp only
  split_ifs <;> rfl

theorem sweepStep_importRequests {σ : Type} (X : Ext) (p : TerraformProvider σ) (acc : State × Mach σ)
    (a : AbsResourceInstance) :
    importRequests (sweepStep X p acc a).2.trace =
      importRequests acc.2.trace ++
        (if swept X acc.1 a then [requestFor X acc.1 a] else []) := by
  unfold sweepStep swept
  simp only
  split_ifs with h1 h2 h3 <;>
    simp only [foldl_emit_trace, importRequests_append, importRequests_debug] <;>
    simp_all [TerraformProvider.importResource, Provider.callImportResourceState, Mach.emit,
      importRequests_append, requestFor] <;>
    simp [importRequests]

theorem importResource_trace {σ : Type} (p : TerraformProvider σ) (c : Mach σ) (resType resID : String) :
    (p.importResource c resType resID).1.trace =
      c.trace ++ [Event.ImportResourceState { TypeName := resType, ID := resID }] := rfl

theorem emit_trace {σ : Type} (c : Mach σ) (e : Event) : (c.emit e).trace = c.trace ++ [e] := rfl

theorem sweepStep_trace {σ : Type} (X : Ext) (p : TerraformProvider σ) (acc : State × Mach σ)
    (a : AbsResourceInstance) :
    ∃ t, (sweepStep X p acc a).2.trace = acc.2.trace ++ t ∧
      ∀ e ∈ t, e.isSweepEvent = true := by
  unfold sweepStep
  simp only
  split_ifs with h1 h2 h3
  · simp only [foldl_emit_trace, emit_trace, importResource_trace, List.append_assoc]
    refine ⟨_, rfl, ?_⟩
    intro e he
    simp at he
    rcases he with rfl | rfl | rfl <;> rfl
  · simp only [foldl_emit_trace, emit_trace, importResource_trace, List.append_assoc]
    refine ⟨_, rfl, ?_⟩
    intro e he
    simp at he
    rcases he with rfl | rfl | ⟨r, _, rfl⟩ <;> rfl
  · exact ⟨[], by simp, by simp⟩
  · exact ⟨[], by simp, by simp⟩

theorem sweep_state {σ : Type} (X : Ext) (p : TerraformProvider σ) (state : State) (c : Mach σ)
    (l : List AbsResourceInstance) : (sweep X p state c l).1 = state := by
  unfold sweep
  induction l generalizing c with
  | nil => rfl
  | cons a l ih =>
    rw [List.foldl_cons]
    have h := sweepStep_state X p (state, c) a
    have e : sweepStep X p (state, c) a = (state, (sweepStep X p (state, c) a).2) :=
      Prod.ext h rfl
    rw [e]
    exact ih _

theorem sweep_cons {σ : Type} (X : Ext) (p : TerraformProvider σ) (state : State) (c : Mach σ)
    (a : AbsResourceInstance) (l : List AbsResourceInstance) :
    sweep X p state c (a :: l) = sweep X p state (sweepStep X p (state, c) a).2 l := by
  have h := sweepStep_state X p (state, c) a
  have e : sweepStep X p (state, c) a = (state, (sweepStep X p (state, c) a).2) :=
    Prod.ext h rfl
  unfold sweep
  rw [List.foldl_cons]
  conv_lhs => rw [e]

theorem sweep_importRequests {σ : Type} (X : Ext) (p : TerraformProvider σ) (state : State) (c : Mach σ)
    (l : List AbsResourceInstance) :
    importRequests (sweep X p state c l).2.trace =
      importRequests c.trace ++ (l.filter (swept X state)).map (requestFor X state) := by
  induction l generalizing c with
  | nil => simp [sweep]
  | cons a l ih =>
    rw [sweep_cons, ih, sweepStep_importRequests]
    by_cases h : swept X state a <;> simp [h, List.filter_cons]

theorem sweep_trace {σ : Type} (X : Ext) (p : TerraformProvider σ) (state : State) (c : Mach σ)
    (l : List AbsResourceInstance) :
    ∃ t, (sweep X p state c l).2.trace = c.trace ++ t ∧ ∀ e ∈ t, e.isSweepEvent = true := by
  induction l generalizing c with
  | nil => exact ⟨[], by simp [sweep], by simp⟩
  | cons a l ih =>
    obtain ⟨t1, h1, g1⟩ := sweepStep_trace X p (state, c) a
    obtain ⟨t2, h2, g2⟩ := ih (sweepStep X p (state, c) a).2
    refine ⟨t1 ++ t2, ?_, ?_⟩
    · rw [sweep_cons, h2, h1, List.append_assoc]
    · intro e he
      rcases List.mem_append.1 he with h | h
      · exact g1 e h
      · exact g2 e h

/-! ## Lemmas on main -/

theorem hasErrors_nil : Diagnostics.HasErrors [] = false := rfl

theorem lookupAll_diags (X : Ext) (ρ : RangeOrder) (state : State) :
    (lookupAllResourceInstanceAddrs X ρ state).2 = [] := rfl

theorem main_of_setupOk {σ : Type} (X : Ext) (ρ : RangeOrder) (W : World σ) (p : TerraformProvider σ)
    (s0 : σ) (state : State) (h : SetupOk X W p s0 state) :
    main X ρ W =
      { trace := (sweep X p state (machAfterSetup X W p s0)
          (lookupAllResourceInstanceAddrs X ρ state).1).2.trace,
        state := some (sweep X p state (machAfterSetup X W p s0)
          (lookupAllResourceInstanceAddrs X ρ state).1).1 } := by
  obtain ⟨h1, h2, h3⟩ := h
  unfold main
  simp only [h1, h2, h3, lookupAll_diags, hasErrors_nil, Bool.false_eq_true, if_false]
  rfl

theorem configure_trace {σ : Type} (p : TerraformProvider σ) (c : Mach σ) (profile region : String) :
    ∃ req, (p.configure c profile region).1.trace = c.trace ++ [Event.Configure req] :=
  ⟨_, rfl⟩

theorem getState_events {σ : Type} (X : Ext) (W : World σ) :
    ∀ e ∈ (getState X W).2,
      e = Event.OpenFile "terraform.tfstate" OpenFlag.O_RDONLY ∨
      e = Event.ReadFile "terraform.tfstate" ∨ e = Event.CloseFile "terraform.tfstate" := by
  intro e he
  unfold getState getStateFromPath osOpen at he
  simp only at he
  cases hf : W.files "terraform.tfstate" with
  | error err => simp [hf] at he; simp [he]
  | ok f =>
    cases hr : X.statefileRead f with
    | error err => simp [hf, hr] at he; rcases he with rfl | rfl | rfl <;> simp
    | ok sf => simp [hf, hr] at he; rcases he with rfl | rfl | rfl <;> simp

theorem importRequests_getState {σ : Type} (X : Ext) (W : World σ) :
    importRequests (getState X W).2 = [] := by
  unfold importRequests
  rw [List.filterMap_eq_nil_iff]
  intro e he
  rcases getState_events X W e he with rfl | rfl | rfl <;> rfl

theorem importRequests_machAfterSetup {σ : Type} (X : Ext) (W : World σ) (p : TerraformProvider σ)
    (s0 : σ) : importRequests (machAfterSetup X W p s0).trace = [] := by
  unfold machAfterSetup
  simp only [importRequests_append, importRequests_getState]
  rfl

theorem main_importRequests {σ : Type} (X : Ext) (ρ : RangeOrder) (W : World σ) (p : TerraformProvider σ)
    (s0 : σ) (state : State) (h : SetupOk X W p s0 state) :
    importRequests (main X ρ W).trace =
      ((lookupAllResourceInstanceAddrs X ρ state).1.filter (swept X state)).map
        (requestFor X state) := by
  rw [main_of_setupOk X ρ W p s0 state h]
  simp only [sweep_importRequests, importRequests_machAfterSetup, List.nil_append]

theorem setupOk_or_fails {σ : Type} (X : Ext) (W : World σ) :
    SetupFails X W ∨ ∃ p s0 state, SetupOk X W p s0 state := by
  unfold SetupFails SetupOk
  cases h1 : loadAWSProvider W with
  | error err => exact Or.inl (Or.inl ⟨err, rfl⟩)
  | ok ps =>
    obtain ⟨p, s0⟩ := ps
    cases h2 : (p.configure { prov := s0, trace := [] } "tfsweeper" "us-west-2").2.HasErrors with
    | true => exact Or.inl (Or.inr (Or.inl ⟨p, s0, rfl, h2⟩))
    | false =>
      cases h3 : (getState X W).1 with
      | error err => exact Or.inl (Or.inr (Or.inr ⟨err, rfl⟩))
      | ok state => exact Or.inr ⟨p, s0, state, rfl, h2, rfl⟩

theorem main_load_error {σ : Type} (X : Ext) (ρ : RangeOrder) (W : World σ) (err : String)
    (h1 : loadAWSProvider W = .error err) :
    main X ρ W =
      { trace := logFatal err "failed to load Terraform AWS resource provider",
        state := none } := by
  unfold main
  simp only [h1]

theorem main_configure_error {σ : Type} (X : Ext) (ρ : RangeOrder) (W : World σ)
    (p : TerraformProvider σ) (s0 : σ) (h1 : loadAWSProvider W = .ok (p, s0))
    (h2 : (p.configure { prov := s0, trace := [] } "tfsweeper" "us-west-2").2.HasErrors = true) :
    main X ρ W =
      { trace := (p.configure { prov := s0, trace := [] } "tfsweeper" "us-west-2").1.trace ++
          logFatal (X.diagErr (p.configure { prov := s0, trace := [] } "tfsweeper" "us-west-2").2)
            "failed to configure Terraform provider",
        state := none } := by
  unfold main
  simp only [h1, h2, if_true]

theorem main_state_error {σ : Type} (X : Ext) (ρ : RangeOrder) (W : World σ)
    (p : TerraformProvider σ) (s0 : σ) (err : String) (h1 : loadAWSProvider W = .ok (p, s0))
    (h2 : (p.configure { prov := s0, trace := [] } "tfsweeper" "us-west-2").2.HasErrors = false)
    (h3 : (getState X W).1 = .error err) :
    main X ρ W =
      { trace := (machAfterSetup X W p s0).trace ++
          logFatal err "failed to read tfstate from local file",
        state := none } := by
  unfold main
  simp only [h1, h2, h3, Bool.false_eq_true, if_false]
  rfl

theorem main_of_setupFails {σ : Type} (X : Ext) (ρ : RangeOrder) (W : World σ) (h : SetupFails X W) :
    importRequests (main X ρ W).trace = [] ∧ FatalEnd (main X ρ W).trace ∧
      (main X ρ W).state = none := by
  cases h1 : loadAWSProvider W with
  | error err =>
    rw [main_load_error X ρ W err h1]
    exact ⟨rfl, ⟨[], _, _, rfl⟩, rfl⟩
  | ok ps =>
    obtain ⟨p, s0⟩ := ps
    cases h2 : (p.configure { prov := s0, trace := [] } "tfsweeper" "us-west-2").2.HasErrors with
    | true =>
      rw [main_configure_error X ρ W p s0 h1 h2]
      exact ⟨rfl, ⟨_, _, _, rfl⟩, rfl⟩
    | false =>
      cases h3 : (getState X W).1 with
      | error err =>
        rw [main_state_error X ρ W p s0 err h1 h2 h3]
        refine ⟨?_, ⟨_, _, _, rfl⟩, rfl⟩
        simp only [importRequests_append, importRequests_machAfterSetup]
        rfl
      | ok state =>
        exfalso
        rcases h with ⟨err, he⟩ | ⟨p', s0', he, hc⟩ | ⟨err, he⟩
        · rw [h1] at he; cases he
        · rw [h1] at he
          cases he
          rw [h2] at hc
          cases hc
        · rw [h3] at he; cases he

theorem configure_trace_nil {σ : Type} (p : TerraformProvider σ) (s0 : σ) (profile region : String) :
    ∃ req, (p.configure { prov := s0, trace := [] } profile region).1.trace =
      [Event.Configure req] :=
  ⟨_, rfl⟩

theorem main_trace_of_setupOk_req {σ : Type} (X : Ext) (ρ : RangeOrder) (W : World σ)
    (p : TerraformProvider σ) (s0 : σ) (state : State) (h : SetupOk X W p s0 state)
    (req : ConfigureRequest)
    (hreq : (p.configure { prov := s0, trace := [] } "tfsweeper" "us-west-2").1.trace =
      [Event.Configure req]) :
    ∃ t, (main X ρ W).trace = Event.Configure req :: ((getState X W).2 ++ t) ∧
      ∀ e ∈ t, e.isSweepEvent = true := by
  obtain ⟨t, ht, gt⟩ := sweep_trace X p state (machAfterSetup X W p s0)
    (lookupAllResourceInstanceAddrs X ρ state).1
  refine ⟨t, ?_, gt⟩
  rw [main_of_setupOk X ρ W p s0 state h]
  simp only [ht]
  simp only [machAfterSetup, hreq, List.cons_append, List.nil_append, List.append_assoc]

theorem main_trace_of_setupOk {σ : Type} (X : Ext) (ρ : RangeOrder) (W : World σ)
    (p : TerraformProvider σ) (s0 : σ) (state : State) (h : SetupOk X W p s0 state) :
    ∃ req t, (main X ρ W).trace = Event.Configure req :: ((getState X W).2 ++ t) ∧
      ∀ e ∈ t, e.isSweepEvent = true := by
  obtain ⟨req, hreq⟩ := configure_trace_nil p s0 "tfsweeper" "us-west-2"
  exact ⟨req, main_trace_of_setupOk_req X ρ W p s0 state h req hreq⟩

theorem configureRequests_of_sweepEvents (t : List Event)
    (h : ∀ e ∈ t, e.isSweepEvent = true) : configureRequests t = [] := by
  unfold configureRequests
  rw [List.filterMap_eq_nil_iff]
  intro e he
  have := h e he
  cases e <;> simp_all [Event.isSweepEvent]

theorem configureRequests_getState {σ : Type} (X : Ext) (W : World σ) :
    configureRequests (getState X W).2 = [] := by
  unfold configureRequests
  rw [List.filterMap_eq_nil_iff]
  intro e he
  rcases getState_events X W e he with rfl | rfl | rfl <;> rfl

theorem configureRequests_append (t u : List Event) :
    configureRequests (t ++ u) = configureRequests t ++ configureRequests u := by
  simp [configureRequests, List.filterMap_append]

theorem sweepEvent_not_exit (e : Event) (h : e.isSweepEvent = true) : e.isExit = false := by
  cases e <;> simp_all [Event.isSweepEvent, Event.isExit]

theorem sweepEvent_not_open (e : Event) (h : e.isSweepEvent = true) (name : String)
    (flag : OpenFlag) : e ≠ Event.OpenFile name flag := by
  intro he
  subst he
  simp [Event.isSweepEvent] at h

theorem openFile_of_mem_main {σ : Type} (X : Ext) (ρ : RangeOrder) (W : World σ) (name : String)
    (flag : OpenFlag) (h : Event.OpenFile name flag ∈ (main X ρ W).trace) :
    name = "terraform.tfstate" ∧ flag = OpenFlag.O_RDONLY := by
  have hg : ∀ e ∈ (getState X W).2, e = Event.OpenFile name flag →
      name = "terraform.tfstate" ∧ flag = OpenFlag.O_RDONLY := by
    intro e he heq
    subst heq
    rcases getState_events X W _ he with h1 | h1 | h1
    · cases h1
      exact ⟨rfl, rfl⟩
    · cases h1
    · cases h1
  cases h1 : loadAWSProvider W with
  | error err =>
    rw [main_load_error X ρ W err h1] at h
    simp [logFatal] at h
  | ok ps =>
    obtain ⟨p, s0⟩ := ps
    obtain ⟨req, hreq⟩ := configure_trace_nil p s0 "tfsweeper" "us-west-2"
    cases h2 : (p.configure { prov := s0, trace := [] } "tfsweeper" "us-west-2").2.HasErrors with
    | true =>
      rw [main_configure_error X ρ W p s0 h1 h2] at h
      simp [logFatal, hreq] at h
    | false =>
      cases h3 : (getState X W).1 with
      | error err =>
        rw [main_state_error X ρ W p s0 err h1 h2 h3] at h
        simp only [machAfterSetup, hreq, logFatal, List.mem_append, List.mem_cons,
          List.mem_singleton, List.not_mem_nil, or_false] at h
        rcases h with (h | h) | h
        · cases h
        · exact hg _ h rfl
        · rcases h with h | h <;> cases h
      | ok state =>
        obtain ⟨req', t, ht, gt⟩ := main_trace_of_setupOk X ρ W p s0 state ⟨h1, h2, h3⟩
        rw [ht] at h
        simp only [List.mem_cons, List.mem_append] at h
        rcases h with h | h | h
        · cases h
        · exact hg _ h rfl
        · exact absurd rfl (sweepEvent_not_open _ (gt _ h) name flag)

theorem not_setupFails_of_setupOk {σ : Type} (X : Ext) (W : World σ) (p : TerraformProvider σ) (s0 : σ)
    (state : State) (h : SetupOk X W p s0 state) : ¬ SetupFails X W := by
  obtain ⟨h1, h2, h3⟩ := h
  rintro (⟨err, he⟩ | ⟨q, t0, he, hc⟩ | ⟨err, he⟩)
  · rw [h1] at he
    cases he
  · rw [h1] at he
    cases he
    rw [h2] at hc
    cases hc
  · rw [h3] at he
    cases he

theorem no_exit_of_setupOk {σ : Type} (X : Ext) (ρ : RangeOrder) (W : World σ) (p : TerraformProvider σ)
    (s0 : σ) (state : State) (h : SetupOk X W p s0 state) :
    ∀ e ∈ (main X ρ W).trace, e.isExit = false := by
  obtain ⟨req, t, ht, gt⟩ := main_trace_of_setupOk X ρ W p s0 state h
  intro e he
  rw [ht] at he
  simp only [List.mem_cons, List.mem_append] at he
  rcases he with rfl | he | he
  · rfl
  · rcases getState_events X W e he with rfl | rfl | rfl <;> rfl
  · exact sweepEvent_not_exit e (gt e he)



/-! ## The claims on the sweep -/

/-- C1, as amended: after a successful set-up, main issues exactly one
ImportResourceState call for every address of the sorted list that is in managed
mode and whose instance in the state has a current object, and none for any
other address; the number of calls is the number of those addresses and the
calls carry the resource types of those addresses, in order. -/
theorem C1_one_call_per_managed_current_address {σ : Type} (X : Ext) (ρ : RangeOrder)
    (W : World σ) (p : TerraformProvider σ) (s0 : σ) (state : State)
    (h : SetupOk X W p s0 state) :
    (importRequests (main X ρ W).trace).length =
      (lookupAllResourceInstanceAddrs X ρ state).1.countP (fun a =>
        decide (a.Resource.Resource.Mode = ResourceMode.ManagedResourceMode) &&
          HasCurrent (State.ResourceInstance X state a)) ∧
    (importRequests (main X ρ W).trace).map (fun req => req.TypeName) =
      ((lookupAllResourceInstanceAddrs X ρ state).1.filter (fun a =>
        decide (a.Resource.Resource.Mode = ResourceMode.ManagedResourceMode) &&
          HasCurrent (State.ResourceInstance X state a))).map
        (fun a => a.Resource.Resource.Type_) := by
  have e : (fun a => decide (a.Resource.Resource.Mode = ResourceMode.ManagedResourceMode) &&
      HasCurrent (State.ResourceInstance X state a)) = swept X state := by
    funext a
    simp only [swept, Bool.and_comm]
  rw [main_importRequests X ρ W p s0 state h, e]
  constructor
  · rw [List.length_map, List.countP_eq_length_filter]
  · rw [List.map_map]
    rfl

/-- C1, witness: the state with four instances, of which two are managed and have
a current object. -/
theorem C1_one_call_per_managed_current_address_witness :
    SetupOk (tfExt (readAs stateMixed)) (worldWith providerOk) { Interface := providerOk } 0
      stateMixed ∧
    (importRequests (main (tfExt (readAs stateMixed)) RangeOrder.id
      (worldWith providerOk)).trace).length = 2 :=
  ⟨⟨rfl, rfl, rfl⟩,
    (C1_one_call_per_managed_current_address (tfExt (readAs stateMixed)) RangeOrder.id
      (worldWith providerOk) { Interface := providerOk } 0 stateMixed ⟨rfl, rfl, rfl⟩).1.trans
      (by decide)⟩

/-- C1, counterexample to the claim as stated: the state keeps the invariant of
package states and holds one address of a resource instance in managed mode, the
set-up succeeds, and main issues no ImportResourceState call, because the
instance has only a deposed object. -/
theorem C1_counterexample_deposed_only :
    stateDeposed.WellFormed (tfExt (readAs stateDeposed)) ∧
    SetupOk (tfExt (readAs stateDeposed)) (worldWith providerOk) { Interface := providerOk } 0
      stateDeposed ∧
    (lookupAllResourceInstanceAddrs (tfExt (readAs stateDeposed)) RangeOrder.id
      stateDeposed).1.countP (fun a =>
        decide (a.Resource.Resource.Mode = ResourceMode.ManagedResourceMode)) = 1 ∧
    (importRequests (main (tfExt (readAs stateDeposed)) RangeOrder.id
      (worldWith providerOk)).trace).length = 0 :=
  ⟨by unfold State.WellFormed GoMap.NodupKeys; decide, ⟨rfl, rfl, rfl⟩, by decide, by decide⟩

/-- C2: the sequence of ImportResourceState requests of the loop does not depend on
the provider.  For every state, every list of addresses and every two providers,
in whatever state their plugins are, the loop issues the same requests; and two
runs of main that set up and read the same state issue the same requests,
whatever the two providers answer. -/
theorem C2_requests_independent_of_provider {σ₁ σ₂ : Type} (X : Ext) (ρ : RangeOrder)
    (p₁ : TerraformProvider σ₁) (p₂ : TerraformProvider σ₂) (state : State) :
    (∀ (l : List AbsResourceInstance) (s₁ : σ₁) (s₂ : σ₂),
      importRequests (sweep X p₁ state { prov := s₁, trace := [] } l).2.trace =
        importRequests (sweep X p₂ state { prov := s₂, trace := [] } l).2.trace) ∧
    (∀ (W₁ : World σ₁) (W₂ : World σ₂) (s₁ : σ₁) (s₂ : σ₂),
      SetupOk X W₁ p₁ s₁ state → SetupOk X W₂ p₂ s₂ state →
        importRequests (main X ρ W₁).trace = importRequests (main X ρ W₂).trace) := by
  constructor
  · intro l s₁ s₂
    rw [sweep_importRequests, sweep_importRequests]
  · intro W₁ W₂ s₁ s₂ h₁ h₂
    rw [main_importRequests X ρ W₁ p₁ s₁ state h₁, main_importRequests X ρ W₂ p₂ s₂ state h₂]

/-- C2, witness: a provider that answers every import with an error and a provider
that answers none with an error receive the same two requests. -/
theorem C2_requests_independent_of_provider_witness :
    importRequests (main (tfExt (readAs stateMixed)) RangeOrder.id
        (worldWith providerFailing)).trace =
      importRequests (main (tfExt (readAs stateMixed)) RangeOrder.id
        (worldWith providerOk)).trace ∧
    importRequests (main (tfExt (readAs stateMixed)) RangeOrder.id
        (worldWith providerFailing)).trace =
      [{ TypeName := "aws_instance", ID := "i-0" }, { TypeName := "aws_vpc", ID := "" }] :=
  ⟨(C2_requests_independent_of_provider (tfExt (readAs stateMixed)) RangeOrder.id
      { Interface := providerFailing } { Interface := providerOk } stateMixed).2
      (worldWith providerFailing) (worldWith providerOk) 0 0 ⟨rfl, rfl, rfl⟩ ⟨rfl, rfl, rfl⟩,
    by decide⟩

/-- C3: the sweep does not change the state and does not write the state file.
The loop of main hands back the state it was given, for every provider, every
list of addresses and every state of the plugin; the state that main holds when
it is over, if any, is the state that getState read, and it is that state after
every successful set-up; and every file that main opens is the file terraform.tfstate,
opened with the flag O_RDONLY. -/
theorem C3_sweep_leaves_state_unchanged {σ : Type} (X : Ext) (ρ : RangeOrder) (W : World σ) :
    (∀ (p : TerraformProvider σ) (state : State) (c : Mach σ) (l : List AbsResourceInstance),
      (sweep X p state c l).1 = state) ∧
    (∀ st, (main X ρ W).state = some st → (getState X W).1 = .ok st) ∧
    (∀ p s0 st, SetupOk X W p s0 st → (main X ρ W).state = some st) ∧
    (∀ name flag, Event.OpenFile name flag ∈ (main X ρ W).trace →
      name = "terraform.tfstate" ∧ flag = OpenFlag.O_RDONLY) := by
  refine ⟨fun p state c l => sweep_state X p state c l, ?_, ?_, ?_⟩
  · intro st hst
    rcases setupOk_or_fails X W with hf | ⟨p, s0, state, hok⟩
    · rw [(main_of_setupFails X ρ W hf).2.2] at hst
      cases hst
    · rw [main_of_setupOk X ρ W p s0 state hok] at hst
      simp only [sweep_state, Option.some.injEq] at hst
      rw [← hst]
      exact hok.2.2
  · intro p s0 st hok
    rw [main_of_setupOk X ρ W p s0 st hok]
    simp only [sweep_state]
  · intro name flag h
    exact openFile_of_mem_main X ρ W name flag h

/-- C3, witness: a run over the state with four instances ends with that state in
memory, and the one file it opens is opened for reading. -/
theorem C3_sweep_leaves_state_unchanged_witness :
    (main (tfExt (readAs stateMixed)) RangeOrder.id (worldWith providerFailing)).state =
      some stateMixed ∧
    ((main (tfExt (readAs stateMixed)) RangeOrder.id (worldWith providerFailing)).trace.filterMap
      (fun e => match e with
        | Event.OpenFile name flag => some (name, flag)
        | _ => none)) = [("terraform.tfstate", OpenFlag.O_RDONLY)] :=
  ⟨(C3_sweep_leaves_state_unchanged (tfExt (readAs stateMixed)) RangeOrder.id
      (worldWith providerFailing)).2.2.1 { Interface := providerFailing } 0 stateMixed
      ⟨rfl, rfl, rfl⟩,
    by decide⟩

/-- C5: when the provider loads, the first event of the run of main is the one
Configure call, and nothing after it is a Configure call; so every
ImportResourceState call comes after the Configure call. -/
theorem C5_configure_once_before_imports {σ : Type} (X : Ext) (ρ : RangeOrder) (W : World σ)
    (p : TerraformProvider σ) (s0 : σ) (h : loadAWSProvider W = .ok (p, s0)) :
    ∃ req rest, (main X ρ W).trace = Event.Configure req :: rest ∧
      configureRequests rest = [] ∧
      configureRequests (main X ρ W).trace = [req] ∧
      (p.configure { prov := s0, trace := [] } "tfsweeper" "us-west-2").1.trace =
        [Event.Configure req] := by
  obtain ⟨req, hreq⟩ := configure_trace_nil p s0 "tfsweeper" "us-west-2"
  have key : ∀ rest, (main X ρ W).trace = Event.Configure req :: rest →
      configureRequests rest = [] →
      ∃ req rest, (main X ρ W).trace = Event.Configure req :: rest ∧
        configureRequests rest = [] ∧
        configureRequests (main X ρ W).trace = [req] ∧
        (p.configure { prov := s0, trace := [] } "tfsweeper" "us-west-2").1.trace =
          [Event.Configure req] := by
    intro rest h1 h2
    refine ⟨req, rest, h1, h2, ?_, hreq⟩
    rw [h1]
    have : configureRequests (Event.Configure req :: rest) = req :: configureRequests rest := rfl
    rw [this, h2]
  cases h2 : (p.configure { prov := s0, trace := [] } "tfsweeper" "us-west-2").2.HasErrors with
  | true =>
    apply key (logFatal (X.diagErr (p.configure { prov := s0, trace := [] } "tfsweeper"
      "us-west-2").2) "failed to configure Terraform provider")
    · rw [main_configure_error X ρ W p s0 h h2, hreq]
      rfl
    · rfl
  | false =>
    cases h3 : (getState X W).1 with
    | error err =>
      apply key ((getState X W).2 ++ logFatal err "failed to read tfstate from local file")
      · rw [main_state_error X ρ W p s0 err h h2 h3]
        simp only [machAfterSetup, hreq, List.cons_append, List.nil_append, List.append_assoc]
      · rw [configureRequests_append, configureRequests_getState]
        rfl
    | ok state =>
      obtain ⟨t, ht, gt⟩ := main_trace_of_setupOk_req X ρ W p s0 state ⟨h, h2, h3⟩ req hreq
      apply key _ ht
      rw [configureRequests_append, configureRequests_getState,
        configureRequests_of_sweepEvents t gt]
      rfl

/-- C5, witness: in the run over the state with four instances the provider calls
are one Configure call followed by two ImportResourceState calls. -/
theorem C5_configure_once_before_imports_witness :
    loadAWSProvider (worldWith providerOk) = .ok ({ Interface := providerOk }, 0) ∧
    ((main (tfExt (readAs stateMixed)) RangeOrder.id (worldWith providerOk)).trace.filter
      Event.isProviderCall).map (fun e => match e with
        | Event.Configure _ => "Configure"
        | Event.ImportResourceState _ => "ImportResourceState"
        | _ => "") = ["Configure", "ImportResourceState", "ImportResourceState"] ∧
    (configureRequests
      (main (tfExt (readAs stateMixed)) RangeOrder.id (worldWith providerOk)).trace).length = 1 :=
  ⟨rfl, by decide,
    (C5_configure_once_before_imports (tfExt (readAs stateMixed)) RangeOrder.id
      (worldWith providerOk) { Interface := providerOk } 0 rfl).elim
      (fun _ h => h.elim (fun _ h => by rw [h.2.2.1]; rfl))⟩

/-- C6: a failure of the set-up is fatal, a failure of an import is not.  If the
provider does not load, or the answer to Configure has an error, or the state
file is not read, the run of main issues no ImportResourceState call and ends
with a line of the log at level fatal and exit code 1.  In every other run there
is no exit event at all, whatever the provider answers to the imports, and the
requests are those of all the managed addresses with a current object. -/
theorem C6_only_setup_failures_are_fatal {σ : Type} (X : Ext) (ρ : RangeOrder) (W : World σ) :
    (SetupFails X W →
      importRequests (main X ρ W).trace = [] ∧ FatalEnd (main X ρ W).trace) ∧
    (¬ SetupFails X W →
      (∀ e ∈ (main X ρ W).trace, e.isExit = false) ∧
      ∃ p s0 state, SetupOk X W p s0 state ∧
        importRequests (main X ρ W).trace =
          ((lookupAllResourceInstanceAddrs X ρ state).1.filter (swept X state)).map
            (requestFor X state)) := by
  constructor
  · intro h
    exact ⟨(main_of_setupFails X ρ W h).1, (main_of_setupFails X ρ W h).2.1⟩
  · intro h
    rcases setupOk_or_fails X W with hf | ⟨p, s0, state, hok⟩
    · exact absurd hf h
    · exact ⟨no_exit_of_setupOk X ρ W p s0 state hok, p, s0, state, hok,
        main_importRequests X ρ W p s0 state hok⟩

/-- C6, witness: the plugin does not start, the provider refuses the configuration,
the state file is missing: each run issues no import; and with a provider that
fails every import the run has no exit event. -/
theorem C6_only_setup_failures_are_fatal_witness :
    (SetupFails (tfExt (readAs stateMixed)) worldNoPlugin ∧
      importRequests (main (tfExt (readAs stateMixed)) RangeOrder.id worldNoPlugin).trace = []) ∧
    (SetupFails (tfExt (readAs stateMixed)) (worldWith providerUnconfigurable) ∧
      importRequests (main (tfExt (readAs stateMixed)) RangeOrder.id
        (worldWith providerUnconfigurable)).trace = []) ∧
    (SetupFails (tfExt (readAs stateMixed)) worldNoFile ∧
      importRequests (main (tfExt (readAs stateMixed)) RangeOrder.id worldNoFile).trace = []) ∧
    (main (tfExt (readAs stateMixed)) RangeOrder.id (worldWith providerFailing)).trace.all
      (fun e => !e.isExit) = true :=
  ⟨⟨Or.inl ⟨_, rfl⟩,
      ((C6_only_setup_failures_are_fatal (tfExt (readAs stateMixed)) RangeOrder.id
        worldNoPlugin).1 (Or.inl ⟨_, rfl⟩)).1⟩,
    ⟨Or.inr (Or.inl ⟨{ Interface := providerUnconfigurable }, 0, rfl, rfl⟩),
      ((C6_only_setup_failures_are_fatal (tfExt (readAs stateMixed)) RangeOrder.id
        (worldWith providerUnconfigurable)).1
        (Or.inr (Or.inl ⟨{ Interface := providerUnconfigurable }, 0, rfl, rfl⟩))).1⟩,
    ⟨Or.inr (Or.inr ⟨_, rfl⟩),
      ((C6_only_setup_failures_are_fatal (tfExt (readAs stateMixed)) RangeOrder.id
        worldNoFile).1 (Or.inr (Or.inr ⟨_, rfl⟩))).1⟩,
    List.all_eq_true.2 (fun e he => by
      rw [((C6_only_setup_failures_are_fatal (tfExt (readAs stateMixed)) RangeOrder.id
        (worldWith providerFailing)).2
        (not_setupFails_of_setupOk _ _ { Interface := providerFailing } 0 stateMixed
          ⟨rfl, rfl, rfl⟩)).1 e he]
      rfl)⟩

/-- C8: after a successful set-up, the sequence of ImportResourceState requests of
main is the sorted address list of lookupAllResourceInstanceAddrs, filtered to
the addresses whose instance in the state has a current object and whose
resource mode is managed, and mapped to the resource type of the address and the
value at key "id" of the flat attributes of the current object, the empty string
when the key is absent. -/
theorem C8_sweep_characterisation {σ : Type} (X : Ext) (ρ : RangeOrder) (W : World σ)
    (p : TerraformProvider σ) (s0 : σ) (state : State) (h : SetupOk X W p s0 state) :
    importRequests (main X ρ W).trace =
      ((lookupAllResourceInstanceAddrs X ρ state).1.filter (fun a =>
        HasCurrent (State.ResourceInstance X state a) &&
          decide (a.Resource.Resource.Mode = ResourceMode.ManagedResourceMode))).map
        (fun a =>
          { TypeName := a.Resource.Resource.Type_,
            ID := match State.ResourceInstance X state a with
              | some { Current := some obj, Deposed := _ } =>
                (GoMap.get? obj.AttrsFlat "id").getD ""
              | _ => "" }) := by
  rw [main_importRequests X ρ W p s0 state h]
  apply List.map_congr_left
  intro a _
  simp only [requestFor, attrsFlatIndex, currentAttrsFlat]
  congr 1
  split <;> simp_all [GoMap.get?]

/-- C8, witness: in the state with four instances, the instance with only a deposed
object and the instance of the data resource are skipped, and the instance with
JSON attributes is imported with the empty ID. -/
theorem C8_sweep_characterisation_witness :
    SetupOk (tfExt (readAs stateMixed)) (worldWith providerOk) { Interface := providerOk } 0
      stateMixed ∧
    (lookupAllResourceInstanceAddrs (tfExt (readAs stateMixed)) RangeOrder.id stateMixed).1.map
      AbsResourceInstance.String =
      ["data.aws_ami.ubuntu", "aws_instance.web[0]", "aws_instance.web[1]", "aws_vpc.main"] ∧
    importRequests (main (tfExt (readAs stateMixed)) RangeOrder.id (worldWith providerOk)).trace =
      [{ TypeName := "aws_instance", ID := "i-0" }, { TypeName := "aws_vpc", ID := "" }] :=
  ⟨⟨rfl, rfl, rfl⟩, by decide,
    (C8_sweep_characterisation (tfExt (readAs stateMixed)) RangeOrder.id (worldWith providerOk)
      { Interface := providerOk } 0 stateMixed ⟨rfl, rfl, rfl⟩).trans (by decide)⟩

/-! ## The claim on the configuration -/

/-- C4: for every profile and region, configure sends one Configure request whose
configuration is an object with exactly 18 attributes of distinct names: profile
is the known string profile, region is the known string region, and each of the
other 16 is an unknown value; configure returns the diagnostics of the answer of
the provider to that request. -/
theorem C4_configure_payload {σ : Type} (p : TerraformProvider σ) (c : Mach σ)
    (profile region : String) :
    ∃ attrs : GoMap String Value,
      (p.configure c profile region).1.trace =
        c.trace ++ [Event.Configure
          { TerraformVersion := "0.12.11", Config := Value.ObjectVal attrs }] ∧
      attrs.length = 18 ∧
      GoMap.NodupKeys attrs ∧
      GoMap.get? attrs "profile" = some (Value.StringVal profile) ∧
      GoMap.get? attrs "region" = some (Value.StringVal region) ∧
      (∀ k ∈ ["access_key", "allowed_account_ids", "assume_role", "endpoints",
          "forbidden_account_ids", "insecure", "max_retries", "s3_force_path_style",
          "secret_key", "shared_credentials_file", "skip_credentials_validation",
          "skip_get_ec2_platforms", "skip_metadata_api_check", "skip_region_validation",
          "skip_requesting_account_id", "token"],
        GoMap.get? attrs k = some (Value.UnknownVal CtyType.DynamicPseudoType)) ∧
      (p.configure c profile region).2 =
        (p.Interface.Configure c.prov
          { TerraformVersion := "0.12.11", Config := Value.ObjectVal attrs }).2.Diagnostics ∧
      (p.configure c profile region).1.prov =
        (p.Interface.Configure c.prov
          { TerraformVersion := "0.12.11", Config := Value.ObjectVal attrs }).1 := by
  refine ⟨_, rfl, rfl, ?_, rfl, rfl, ?_, rfl, rfl⟩
  · unfold GoMap.NodupKeys
    simp only [List.map_cons, List.map_nil]
    decide
  · intro k hk
    simp only [List.mem_cons, List.mem_singleton, List.not_mem_nil, or_false] at hk
    rcases hk with rfl | rfl | rfl | rfl | rfl | rfl | rfl | rfl | rfl | rfl | rfl | rfl | rfl |
      rfl | rfl | rfl <;> rfl

/-! ## Lemmas on the enumeration -/

theorem foldl_append_flatMap {α β : Type} (f : α → List β) (l : List α) (init : List β) :
    l.foldl (fun ret kv => ret ++ f kv) init = init ++ l.flatMap f := by
  induction l generalizing init with
  | nil => simp
  | cons a l ih => simp [List.foldl_cons, ih, List.flatMap_cons, List.append_assoc]

theorem collectResourceInstances_eq (ρ : RangeOrder) (moduleAddr : ModuleInstance)
    (rs : Resource) :
    collectResourceInstances ρ moduleAddr rs =
      (ρ.instances rs.Instances).map (fun i =>
        { Module := moduleAddr, Resource := { Resource := rs.Addr, Key := i.1 } }) := by
  unfold collectResourceInstances
  have h := foldl_append_flatMap
    (fun kv : InstanceKey × ResourceInstance => [(rs.Addr.Instance kv.1).Absolute moduleAddr])
    (ρ.instances rs.Instances) []
  rw [h, List.nil_append]
  induction ρ.instances rs.Instances with
  | nil => rfl
  | cons a l ih =>
    rw [List.flatMap_cons, ih]
    rfl

theorem collectModuleResourceInstances_eq (ρ : RangeOrder) (ms : Module) :
    collectModuleResourceInstances ρ ms =
      (ρ.resources ms.Resources).flatMap (fun r => collectResourceInstances ρ ms.Addr r.2) := by
  unfold collectModuleResourceInstances
  rw [foldl_append_flatMap, List.nil_append]

theorem lookupAll_eq (X : Ext) (ρ : RangeOrder) (state : State) :
    (lookupAllResourceInstanceAddrs X ρ state).1 =
      X.sortSlice X.Less
        ((ρ.modules state.Modules).flatMap (fun m => collectModuleResourceInstances ρ m.2)) := by
  unfold lookupAllResourceInstanceAddrs
  simp only
  rw [foldl_append_flatMap, List.nil_append]

theorem collectResourceInstances_perm (ρ : RangeOrder) (hρ : ρ.Valid)
    (moduleAddr : ModuleInstance) (rs : Resource) :
    (collectResourceInstances ρ moduleAddr rs).Perm
      (rs.Instances.map (fun i =>
        { Module := moduleAddr, Resource := { Resource := rs.Addr, Key := i.1 } })) := by
  rw [collectResourceInstances_eq]
  exact (hρ.2.2 rs.Instances).map _

theorem collectModuleResourceInstances_perm (ρ : RangeOrder) (hρ : ρ.Valid) (ms : Module) :
    (collectModuleResourceInstances ρ ms).Perm
      (ms.Resources.flatMap (fun r =>
        r.2.Instances.map (fun i =>
          { Module := ms.Addr, Resource := { Resource := r.2.Addr, Key := i.1 } }))) := by
  rw [collectModuleResourceInstances_eq]
  exact ((hρ.2.1 ms.Resources).flatMap_right _).trans
    (List.Perm.flatMap_left _ (fun r _ => collectResourceInstances_perm ρ hρ ms.Addr r.2))

theorem unsorted_perm_allAddrs (ρ : RangeOrder) (hρ : ρ.Valid) (state : State) :
    ((ρ.modules state.Modules).flatMap (fun m => collectModuleResourceInstances ρ m.2)).Perm
      state.allAddrs := by
  unfold State.allAddrs
  exact ((hρ.1 state.Modules).flatMap_right _).trans
    (List.Perm.flatMap_left _ (fun m _ => collectModuleResourceInstances_perm ρ hρ m.2))

theorem lookupAll_perm (X : Ext) (ρ : RangeOrder) (state : State) (hρ : ρ.Valid)
    (hs : SortContract X.sortSlice) :
    (lookupAllResourceInstanceAddrs X ρ state).1.Perm state.allAddrs := by
  rw [lookupAll_eq]
  exact ((hs X.Less _).1).trans (unsorted_perm_allAddrs ρ hρ state)

theorem allAddrs_length (state : State) : state.allAddrs.length = state.instanceCount := by
  unfold State.allAddrs State.instanceCount
  rw [List.length_flatMap]
  congr 1
  apply List.map_congr_left
  intro m _
  simp only [Function.comp]
  rw [List.length_flatMap]
  congr 1
  apply List.map_congr_left
  intro r _
  simp only [Function.comp, List.length_map]

theorem StrictWeakOn.of_perm {α : Type} {less : α → α → Bool} {l₁ l₂ : List α}
    (hp : l₁.Perm l₂) (h : StrictWeakOn less l₂) : StrictWeakOn less l₁ :=
  ⟨fun a ha => h.1 a (hp.mem_iff.1 ha),
    fun a ha b hb c hc => h.2.1 a (hp.mem_iff.1 ha) b (hp.mem_iff.1 hb) c (hp.mem_iff.1 hc),
    fun a ha b hb c hc => h.2.2 a (hp.mem_iff.1 ha) b (hp.mem_iff.1 hb) c (hp.mem_iff.1 hc)⟩

theorem lookupAll_sorted (X : Ext) (ρ : RangeOrder) (state : State) (hρ : ρ.Valid)
    (hs : SortContract X.sortSlice) (hl : StrictWeakOn X.Less state.allAddrs) :
    SortedBy X.Less (lookupAllResourceInstanceAddrs X ρ state).1 := by
  rw [lookupAll_eq]
  exact (hs X.Less _).2 (StrictWeakOn.of_perm (unsorted_perm_allAddrs ρ hρ state) hl)

theorem StrictTotalOn.strictWeakOn {α : Type} {less : α → α → Bool} {l : List α}
    (h : StrictTotalOn less l) : StrictWeakOn less l := by
  refine ⟨h.1, h.2.1, ?_⟩
  intro a ha b hb c hc hab hbc
  by_contra hac
  have hac' : less a c = true := by simpa using hac
  by_cases e : a = b
  · subst e
    rw [hac'] at hbc
    cases hbc
  · rcases h.2.2 a ha b hb e with h1 | h1
    · rw [h1] at hab
      cases hab
    · have := h.2.1 b hb a ha c hc h1 hac'
      rw [this] at hbc
      cases hbc

theorem StrictWeakOn.asymm {α : Type} {less : α → α → Bool} {l : List α}
    (h : StrictWeakOn less l) (a b : α) (ha : a ∈ l) (hb : b ∈ l) (hab : less a b = true) :
    less b a = false := by
  by_contra hba
  have hba' : less b a = true := by simpa using hba
  have := h.2.1 a ha b hb a ha hab hba'
  rw [h.1 a ha] at this
  cases this

theorem sorted_perm_unique {α : Type} (less : α → α → Bool) (l₁ l₂ : List α)
    (hp : l₁.Perm l₂) (ht : StrictTotalOn less l₁) (h₁ : SortedBy less l₁)
    (h₂ : SortedBy less l₂) : l₁ = l₂ := by
  let r : α → α → Prop := fun x y => x ∈ l₁ ∧ y ∈ l₁ ∧ less y x = false
  have anti : IsAntisymm α r := by
    constructor
    intro x y hxy hyx
    by_contra hne
    rcases ht.2.2 x hxy.1 y hxy.2.1 hne with h | h
    · rw [hyx.2.2] at h
      cases h
    · rw [hxy.2.2] at h
      cases h
  have s₁ : List.Sorted r l₁ := List.Pairwise.and_mem.1 h₁
  have s₂ : List.Sorted r l₂ := by
    have h := List.Pairwise.and_mem.1 h₂
    exact h.imp (fun hxy => ⟨hp.mem_iff.2 hxy.1, hp.mem_iff.2 hxy.2.1, hxy.2.2⟩)
  exact List.eq_of_perm_of_sorted hp s₁ s₂

theorem insertSorted_perm {α : Type} (less : α → α → Bool) (a : α) (l : List α) :
    (insertSorted less a l).Perm (a :: l) := by
  induction l with
  | nil => exact List.Perm.refl _
  | cons b l ih =>
    unfold insertSorted
    split_ifs
    · exact ((List.Perm.cons b ih).trans (List.Perm.swap a b l))
    · exact List.Perm.refl _

theorem insertionSortBy_perm {α : Type} (less : α → α → Bool) (l : List α) :
    (insertionSortBy less l).Perm l := by
  induction l with
  | nil => exact List.Perm.refl _
  | cons a l ih =>
    unfold insertionSortBy
    exact (insertSorted_perm less a _).trans (List.Perm.cons a ih)

theorem insertSorted_sorted {α : Type} (less : α → α → Bool) (a : α) (l : List α)
    (hw : StrictWeakOn less (a :: l)) (hl : SortedBy less l) :
    SortedBy less (insertSorted less a l) := by
  induction l with
  | nil => simp [insertSorted, SortedBy]
  | cons b l ih =>
    have hb : b ∈ a :: b :: l := by simp
    have ha : a ∈ a :: b :: l := by simp
    obtain ⟨hbl, hl'⟩ := List.pairwise_cons.1 hl
    unfold insertSorted
    split_ifs with hba
    · have hw' : StrictWeakOn less (a :: l) :=
        ⟨fun x hx => hw.1 x (by simp at hx ⊢; tauto),
          fun x hx y hy z hz => hw.2.1 x (by simp at hx ⊢; tauto) y (by simp at hy ⊢; tauto)
            z (by simp at hz ⊢; tauto),
          fun x hx y hy z hz => hw.2.2 x (by simp at hx ⊢; tauto) y (by simp at hy ⊢; tauto)
            z (by simp at hz ⊢; tauto)⟩
      refine List.pairwise_cons.2 ⟨?_, ih hw' hl'⟩
      intro y hy
      rcases List.mem_cons.1 ((insertSorted_perm less a l).mem_iff.1 hy) with rfl | hy
      · exact hw.asymm b y hb ha hba
      · exact hbl y hy
    · have hba' : less b a = false := by simpa using hba
      refine List.pairwise_cons.2 ⟨?_, hl⟩
      intro y hy
      rcases List.mem_cons.1 hy with rfl | hy
      · exact hba'
      · exact hw.2.2 y (by simp [hy]) b hb a ha (hbl y hy) hba'

theorem insertionSortBy_sorted {α : Type} (less : α → α → Bool) (l : List α)
    (hw : StrictWeakOn less l) : SortedBy less (insertionSortBy less l) := by
  induction l with
  | nil => simp [insertionSortBy, SortedBy]
  | cons a l ih =>
    unfold insertionSortBy
    have hw' : StrictWeakOn less l :=
      ⟨fun x hx => hw.1 x (by simp [hx]),
        fun x hx y hy z hz => hw.2.1 x (by simp [hx]) y (by simp [hy]) z (by simp [hz]),
        fun x hx y hy z hz => hw.2.2 x (by simp [hx]) y (by simp [hy]) z (by simp [hz])⟩
    exact insertSorted_sorted less a _
      (StrictWeakOn.of_perm (List.Perm.cons a (insertionSortBy_perm less l)) hw) (ih hw')

theorem insertionSortBy_contract {α : Type} :
    SortContract (insertionSortBy : (α → α → Bool) → List α → List α) :=
  fun less l => ⟨insertionSortBy_perm less l, insertionSortBy_sorted less l⟩

theorem rangeOrder_id_valid : RangeOrder.id.Valid :=
  ⟨fun _ => List.Perm.refl _, fun _ => List.Perm.refl _, fun _ => List.Perm.refl _⟩

theorem rangeOrder_rev_valid : RangeOrder.rev.Valid :=
  ⟨fun m => List.reverse_perm m, fun m => List.reverse_perm m, fun m => List.reverse_perm m⟩

theorem GoMap.get?_of_mem {κ ν : Type} [DecidableEq κ] (m : GoMap κ ν) (hn : GoMap.NodupKeys m)
    (k : κ) (v : ν) (h : (k, v) ∈ m) : GoMap.get? m k = some v := by
  induction m with
  | nil => cases h
  | cons kv m ih =>
    obtain ⟨k', v'⟩ := kv
    unfold GoMap.NodupKeys at hn
    simp only [List.map_cons, List.nodup_cons] at hn
    unfold GoMap.get?
    rcases List.mem_cons.1 h with e | h'
    · cases e
      simp
    · have hne : k' ≠ k := by
        intro e
        subst e
        exact hn.1 (List.mem_map.2 ⟨(k', v), h', rfl⟩)
      simp only [hne, if_false]
      exact ih hn.2 h'

theorem mem_allAddrs (state : State) (a : AbsResourceInstance) :
    a ∈ state.allAddrs ↔
      ∃ m ∈ state.Modules, ∃ r ∈ m.2.Resources, ∃ i ∈ r.2.Instances,
        a = { Module := m.2.Addr, Resource := { Resource := r.2.Addr, Key := i.1 } } := by
  unfold State.allAddrs
  simp only [List.mem_flatMap, List.mem_map]
  constructor
  · rintro ⟨m, hm, r, hr, i, hi, rfl⟩
    exact ⟨m, hm, r, hr, i, hi, rfl⟩
  · rintro ⟨m, hm, r, hr, i, hi, rfl⟩
    exact ⟨m, hm, r, hr, i, hi, rfl⟩

theorem resourceInstance_of_entry (X : Ext) (state : State) (hw : state.WellFormed X)
    (m : String × Module) (hm : m ∈ state.Modules) (r : String × Resource)
    (hr : r ∈ m.2.Resources) (i : InstanceKey × ResourceInstance) (hi : i ∈ r.2.Instances) :
    State.ResourceInstance X state
      { Module := m.2.Addr, Resource := { Resource := r.2.Addr, Key := i.1 } } = some i.2 := by
  obtain ⟨hn, hmods⟩ := hw
  obtain ⟨hk, hnr, hres⟩ := hmods m hm
  obtain ⟨hrk, hni⟩ := hres r hr
  have e1 : GoMap.get? state.Modules (X.moduleString m.2.Addr) = some m.2 :=
    GoMap.get?_of_mem state.Modules hn _ _ (by rw [← hk]; exact hm)
  have e2 : GoMap.get? m.2.Resources (X.resourceString r.2.Addr) = some r.2 :=
    GoMap.get?_of_mem m.2.Resources hnr _ _ (by rw [← hrk]; exact hr)
  have e3 : GoMap.get? r.2.Instances i.1 = some i.2 :=
    GoMap.get?_of_mem r.2.Instances hni _ _ hi
  simp only [State.ResourceInstance, State.Module, Module.ResourceInstance, Module.Resource,
    AddrResourceInstance.ContainingResource, e1, e2, e3]

theorem fatal_lookup_not_mem_main {σ : Type} (X : Ext) (ρ : RangeOrder) (W : World σ)
    (fields : List (String × String)) :
    Event.Log Level.FatalLevel "failed to lookup resource instance addresses" fields ∉
      (main X ρ W).trace := by
  intro h
  cases h1 : loadAWSProvider W with
  | error err =>
    rw [main_load_error X ρ W err h1] at h
    simp [logFatal] at h
  | ok ps =>
    obtain ⟨p, s0⟩ := ps
    obtain ⟨req, hreq⟩ := configure_trace_nil p s0 "tfsweeper" "us-west-2"
    cases h2 : (p.configure { prov := s0, trace := [] } "tfsweeper" "us-west-2").2.HasErrors with
    | true =>
      rw [main_configure_error X ρ W p s0 h1 h2] at h
      simp [logFatal, hreq] at h
    | false =>
      cases h3 : (getState X W).1 with
      | error err =>
        rw [main_state_error X ρ W p s0 err h1 h2 h3] at h
        simp only [machAfterSetup, hreq, logFatal, List.mem_append, List.mem_cons,
          List.mem_singleton, List.not_mem_nil, or_false] at h
        rcases h with (h | h) | h
        · cases h
        · rcases getState_events X W _ h with h | h | h <;> cases h
        · rcases h with h | h
          · simp at h
          · cases h
      | ok state =>
        obtain ⟨req', t, ht, gt⟩ := main_trace_of_setupOk X ρ W p s0 state ⟨h1, h2, h3⟩
        rw [ht] at h
        simp only [List.mem_cons, List.mem_append] at h
        rcases h with h | h | h
        · cases h
        · rcases getState_events X W _ h with h | h | h <;> cases h
        · have := gt _ h
          simp [Event.isSweepEvent] at this

/-! ## The claims on the enumeration -/

/-- C7: lookupAllResourceInstanceAddrs lists the addresses of the state completely
and in order.  When every range loop visits each entry of its map once and
sort.Slice keeps its contract, the returned list is a rearrangement of the
addresses of the state, one for every module, resource and instance key and
nothing else, and its length is the sum of the instance counts; and when Less is
a strict weak order on those addresses the list is sorted ascending: no element
is Less than an element before it. -/
theorem C7_enumeration_complete_and_sorted (X : Ext) (ρ : RangeOrder) (state : State)
    (hρ : ρ.Valid) (hs : SortContract X.sortSlice)
    (hl : StrictWeakOn X.Less state.allAddrs) :
    (lookupAllResourceInstanceAddrs X ρ state).1.Perm state.allAddrs ∧
    (lookupAllResourceInstanceAddrs X ρ state).1.length = state.instanceCount ∧
    (lookupAllResourceInstanceAddrs X ρ state).1.Pairwise (fun a b => X.Less b a = false) := by
  refine ⟨lookupAll_perm X ρ state hρ hs, ?_, lookupAll_sorted X ρ state hρ hs hl⟩
  rw [(lookupAll_perm X ρ state hρ hs).length_eq, allAddrs_length]

/-- C7, witness: the state with four instances, visited backwards. -/
theorem C7_enumeration_complete_and_sorted_witness :
    RangeOrder.rev.Valid ∧
    SortContract (tfExt (readAs stateMixed)).sortSlice ∧
    StrictWeakOn (tfExt (readAs stateMixed)).Less stateMixed.allAddrs ∧
    (lookupAllResourceInstanceAddrs (tfExt (readAs stateMixed)) RangeOrder.rev
      stateMixed).1.length = 4 ∧
    (lookupAllResourceInstanceAddrs (tfExt (readAs stateMixed)) RangeOrder.rev
      stateMixed).1.Pairwise (fun a b => AbsResourceInstance.Less b a = false) :=
  ⟨rangeOrder_rev_valid, insertionSortBy_contract, by unfold StrictWeakOn; decide,
    (C7_enumeration_complete_and_sorted (tfExt (readAs stateMixed)) RangeOrder.rev stateMixed
      rangeOrder_rev_valid insertionSortBy_contract (by unfold StrictWeakOn; decide)).2.1.trans
      (by decide),
    (C7_enumeration_complete_and_sorted (tfExt (readAs stateMixed)) RangeOrder.rev stateMixed
      rangeOrder_rev_valid insertionSortBy_contract (by unfold StrictWeakOn; decide)).2.2⟩

/-- C9: the order of the sweep does not depend on the order in which the range
loops visit the maps.  When Less is a strict total order on the addresses of the
state and sort.Slice keeps its contract, any two visiting orders give the same
result of lookupAllResourceInstanceAddrs, and the runs of main that read this
state issue the same ImportResourceState requests. -/
theorem C9_order_of_sweep_deterministic (X : Ext) (ρ₁ ρ₂ : RangeOrder) (state : State)
    (h₁ : ρ₁.Valid) (h₂ : ρ₂.Valid) (hs : SortContract X.sortSlice)
    (ht : StrictTotalOn X.Less state.allAddrs) :
    lookupAllResourceInstanceAddrs X ρ₁ state = lookupAllResourceInstanceAddrs X ρ₂ state ∧
    ∀ {σ : Type} (W : World σ) (p : TerraformProvider σ) (s0 : σ), SetupOk X W p s0 state →
      importRequests (main X ρ₁ W).trace = importRequests (main X ρ₂ W).trace := by
  have hw := ht.strictWeakOn
  have hp₁ := lookupAll_perm X ρ₁ state h₁ hs
  have hp₂ := lookupAll_perm X ρ₂ state h₂ hs
  have e : (lookupAllResourceInstanceAddrs X ρ₁ state).1 =
      (lookupAllResourceInstanceAddrs X ρ₂ state).1 := by
    apply sorted_perm_unique X.Less _ _ (hp₁.trans hp₂.symm)
    · exact ⟨fun a ha => ht.1 a (hp₁.mem_iff.1 ha),
        fun a ha b hb c hc =>
          ht.2.1 a (hp₁.mem_iff.1 ha) b (hp₁.mem_iff.1 hb) c (hp₁.mem_iff.1 hc),
        fun a ha b hb => ht.2.2 a (hp₁.mem_iff.1 ha) b (hp₁.mem_iff.1 hb)⟩
    · exact lookupAll_sorted X ρ₁ state h₁ hs hw
    · exact lookupAll_sorted X ρ₂ state h₂ hs hw
  refine ⟨Prod.ext e rfl, ?_⟩
  intro σ W p s0 hok
  rw [main_importRequests X ρ₁ W p s0 state hok, main_importRequests X ρ₂ W p s0 state hok, e]

/-- C9, witness: the state with four instances, visited forwards and backwards.
The two unsorted enumerations differ and the two results are equal. -/
theorem C9_order_of_sweep_deterministic_witness :
    StrictTotalOn (tfExt (readAs stateMixed)).Less stateMixed.allAddrs ∧
    (RangeOrder.id.modules stateMixed.Modules).flatMap
        (fun m => collectModuleResourceInstances RangeOrder.id m.2) ≠
      (RangeOrder.rev.modules stateMixed.Modules).flatMap
        (fun m => collectModuleResourceInstances RangeOrder.rev m.2) ∧
    lookupAllResourceInstanceAddrs (tfExt (readAs stateMixed)) RangeOrder.id stateMixed =
      lookupAllResourceInstanceAddrs (tfExt (readAs stateMixed)) RangeOrder.rev stateMixed :=
  ⟨by unfold StrictTotalOn; decide, by decide,
    (C9_order_of_sweep_deterministic (tfExt (readAs stateMixed)) RangeOrder.id RangeOrder.rev
      stateMixed rangeOrder_id_valid rangeOrder_rev_valid insertionSortBy_contract
      (by unfold StrictTotalOn; decide)).1⟩

/-- C10: the diagnostics that lookupAllResourceInstanceAddrs returns are empty, so
they hold no error and main never logs the fatal line for a failed lookup of the
addresses; and in a state that keeps the invariant of package states, for every
address of the returned list the lookup State.ResourceInstance finds the instance
of the entry the address was made from. -/
theorem C10_lookup_diagnostics_empty_and_instances_found (X : Ext) (ρ : RangeOrder)
    (state : State) :
    (lookupAllResourceInstanceAddrs X ρ state).2 = [] ∧
    (lookupAllResourceInstanceAddrs X ρ state).2.HasErrors = false ∧
    (∀ {σ : Type} (W : World σ) (fields : List (String × String)),
      Event.Log Level.FatalLevel "failed to lookup resource instance addresses" fields ∉
        (main X ρ W).trace) ∧
    (state.WellFormed X → ρ.Valid → SortContract X.sortSlice →
      ∀ a ∈ (lookupAllResourceInstanceAddrs X ρ state).1,
        ∃ m ∈ state.Modules, ∃ r ∈ m.2.Resources, ∃ i ∈ r.2.Instances,
          a = { Module := m.2.Addr, Resource := { Resource := r.2.Addr, Key := i.1 } } ∧
          State.ResourceInstance X state a = some i.2) := by
  refine ⟨rfl, rfl, fun W fields => fatal_lookup_not_mem_main X ρ W fields, ?_⟩
  intro hw hρ hs a ha
  obtain ⟨m, hm, r, hr, i, hi, e⟩ :=
    (mem_allAddrs state a).1 ((lookupAll_perm X ρ state hρ hs).mem_iff.1 ha)
  refine ⟨m, hm, r, hr, i, hi, e, ?_⟩
  rw [e]
  exact resourceInstance_of_entry X state hw m hm r hr i hi

/-- C10, witness: the state with four instances keeps the invariant, and the lookup
finds an instance for each of its four addresses. -/
theorem C10_lookup_diagnostics_empty_and_instances_found_witness :
    stateMixed.WellFormed (tfExt (readAs stateMixed)) ∧
    (lookupAllResourceInstanceAddrs (tfExt (readAs stateMixed)) RangeOrder.id
      stateMixed).1.length = 4 ∧
    (lookupAllResourceInstanceAddrs (tfExt (readAs stateMixed)) RangeOrder.id stateMixed).1.all
      (fun a => (State.ResourceInstance (tfExt (readAs stateMixed)) stateMixed a).isSome) =
      true :=
  ⟨by unfold State.WellFormed GoMap.NodupKeys; decide, by decide,
    List.all_eq_true.2 (fun a ha => by
      obtain ⟨m, _, r, _, i, _, _, h⟩ :=
        (C10_lookup_diagnostics_empty_and_instances_found (tfExt (readAs stateMixed))
          RangeOrder.id stateMixed).2.2.2
          (by unfold State.WellFormed GoMap.NodupKeys; decide)
          rangeOrder_id_valid insertionSortBy_contract a ha
      rw [h]
      rfl)⟩

end Terradozer
